import Mathlib

/-!
# L1 path-following controller (`src/L1_controller.cpp`)

A shallow embedding of the `L1Controller` class and the properties of its
guidance logic.

Numbers.  A finite `double` is an element of a linearly ordered field `α`,
with exact arithmetic.  Two places where the program leaves exact real
arithmetic are modelled explicitly:

* `isForwardWayPt` and `getYawFromPose` store intermediate values in `float`
  variables.  The `double`-to-`float` conversion is `binary32`: rounding to
  the nearest number with a 24-bit significand, ties to even.
* `getEta` divides by the forward component of the target vector without a
  guard.  The quotient is a `Quo` (finite, plus or minus infinity, or NaN),
  and everything computed from it (`eta`, the steering angle, `cur_err`,
  `int_err`, the steering command) is a `Dbl`: a finite number or NaN.  NaN
  behaves as in IEEE 754: it propagates through arithmetic and every
  comparison with it is false.

All definitions are generic in `α`, so they evaluate on `ℚ` and specialise
to `ℝ`.

External code.  The C math library (`sqrt`, `sin`, `cos`, `atan`) and the
`tf` quaternion-to-yaw conversion are not part of the repository; they are
the fields of `Libm`.  The `tf` frame transform is an argument
`PoseStamped α → Option (PoseStamped α)` of every operation that calls it,
`none` standing for a thrown `tf::TransformException`.

Visualisation markers, logging and `sleep` calls are left out.
-/

namespace L1

/-! ## Numbers -/

/-- A `double` that may be NaN: a finite number or NaN. -/
inductive Dbl (α : Type) where
  | num (x : α)
  | nan

/-- The value of a `double` quotient: finite, an infinity, or NaN. -/
inductive Quo (α : Type) where
  | fin (q : α)
  | posInf
  | negInf
  | nan

/-! ## Messages -/

/-- The message type `geometry_msgs::Point`. -/
structure Point (α : Type) where
  x : α
  y : α
  z : α

/-- The message type `geometry_msgs::Quaternion`. -/
structure Quaternion (α : Type) where
  x : α
  y : α
  z : α
  w : α

/-- The message type `geometry_msgs::Pose`. -/
structure Pose (α : Type) where
  position : Point α
  orientation : Quaternion α

/-- The message type `geometry_msgs::PoseStamped` (header left out). -/
structure PoseStamped (α : Type) where
  pose : Pose α

/-- The message type `geometry_msgs::Vector3`. -/
structure Vector3 (α : Type) where
  x : α
  y : α
  z : α

/-- The message type `geometry_msgs::Twist`. -/
structure Twist (α : Type) where
  linear : Vector3 α
  angular : Vector3 α

/-- The part of `nav_msgs::Odometry` the controller reads: `pose.pose` and
`twist.twist`. -/
structure Odometry (α : Type) where
  pose : Pose α
  twist : Twist α

/-- The message type `nav_msgs::Path`: the ordered waypoints. -/
structure Path (α : Type) where
  poses : List (PoseStamped α)

/-- Library functions the controller calls: libm and the yaw of
`tf::Matrix3x3(q).getRPY`.  `atanInf` is
`atan` of plus infinity (the `double` nearest `π / 2`); `atan` of minus
infinity is its negative. -/
structure Libm (α : Type) where
  sqrt : α → α
  sin : α → α
  cos : α → α
  atan : α → α
  atanInf : α
  getRPY_yaw : Quaternion α → α

/-- The frame transform `tf_listener.transformPose("odom", Time(0), p, "map", out)`:
`some out`, or `none` when it throws. -/
abbrev Transform (α : Type) := PoseStamped α → Option (PoseStamped α)

section Defaults
variable {α : Type} [Zero α]

/-- A default-constructed `geometry_msgs::Point` (all zero). -/
def Point.zero : Point α := ⟨0, 0, 0⟩

/-- A default-constructed `geometry_msgs::Pose` (all zero). -/
def Pose.zero : Pose α := ⟨Point.zero, ⟨0, 0, 0, 0⟩⟩

/-- A default-constructed `geometry_msgs::Twist` (all zero). -/
def Twist.zero : Twist α := ⟨⟨0, 0, 0⟩, ⟨0, 0, 0⟩⟩

/-- A default-constructed `nav_msgs::Odometry`. -/
def Odometry.zero : Odometry α := ⟨Pose.zero, Twist.zero⟩

end Defaults

/-! ## Controller state -/

/-- The values read from the parameter server by the constructor
(lines 46-59), defaults already applied. -/
structure Params (α : Type) where
  L : α
  Lfw : α
  Lrv : α
  Vcmd : α
  lfw : α
  lrv : α
  controller_freq : Int
  Kp : α
  Gas_gain : α
  baseSpeed : Int
  baseAngle : α
  Ki : α

/-- The data members of `class L1Controller` that the control code reads or
writes.  `cur_err`, `int_err` and the components of `cmd_vel` are written
from the result of `getEta` and may be NaN. -/
structure L1Controller (α : Type) where
  odom : Odometry α
  map_path : Path α
  L : α
  Lfw : α
  Lrv : α
  Vcmd : α
  lfw : α
  lrv : α
  controller_freq : Int
  Gas_gain : α
  baseSpeed : Int
  baseAngle : α
  cmd_vel : Twist (Dbl α)
  Kp : α
  Ki : α
  cur_err : Dbl α
  int_err : Dbl α
  dt : α
  L1 : α
  foundForwardPt : Bool
  goalRadius : α
  odom_goal_pos : Point α
  goal_received : Bool
  goal_reached : Bool

section Arithmetic
variable {α : Type} [LinearOrderedField α]

/-- Addition of `double`s: NaN if an operand is NaN. -/
def Dbl.add : Dbl α → Dbl α → Dbl α
  | Dbl.num a, Dbl.num b => Dbl.num (a + b)
  | _, _ => Dbl.nan

/-- Multiplication of `double`s: NaN if an operand is NaN. -/
def Dbl.mul : Dbl α → Dbl α → Dbl α
  | Dbl.num a, Dbl.num b => Dbl.num (a * b)
  | _, _ => Dbl.nan

/-- The comparison `a >= c`: false if `a` is NaN. -/
def Dbl.ge : Dbl α → α → Bool
  | Dbl.num a, c => decide (a ≥ c)
  | Dbl.nan, _ => false

/-- The comparison `a <= c`: false if `a` is NaN. -/
def Dbl.le : Dbl α → α → Bool
  | Dbl.num a, c => decide (a ≤ c)
  | Dbl.nan, _ => false

/-- The `double` quotient `y / x` of finite operands: a zero divisor gives
an infinity with the sign of `y`, or NaN when `y` is zero too.  (A zero
divisor is taken as `+0.0`, which is what a difference `a - a` and a sum of
zeros of mixed sign produce.) -/
def Quo.div (y x : α) : Quo α :=
  if x ≠ 0 then Quo.fin (y / x)
  else if 0 < y then Quo.posInf
  else if y < 0 then Quo.negInf
  else Quo.nan

/-- The library's `atan` at a quotient. -/
def Libm.atanQuo (m : Libm α) : Quo α → Dbl α
  | Quo.fin q => Dbl.num (m.atan q)
  | Quo.posInf => Dbl.num m.atanInf
  | Quo.negInf => Dbl.num (-m.atanInf)
  | Quo.nan => Dbl.nan

end Arithmetic

section Binary32
variable {α : Type} [LinearOrderedField α] [FloorRing α]

/-- Rounding to the nearest integer, ties to the even one. -/
def roundEven (q : α) : Int :=
  if q - ⌊q⌋ < 1 / 2 then ⌊q⌋
  else if 1 / 2 < q - ⌊q⌋ then ⌊q⌋ + 1
  else if ⌊q⌋ % 2 = 0 then ⌊q⌋
  else ⌊q⌋ + 1

/-- The conversion of a `double` to `float` (IEEE 754 binary32): rounding to
the nearest number with a 24-bit significand, ties to even.  The exponent
range is not bounded: overflow and underflow of `float` are left out. -/
def binary32 (x : α) : α :=
  if x = 0 then 0
  else (roundEven (x / 2 ^ (Int.log 2 |x| - 23)) : α) * 2 ^ (Int.log 2 |x| - 23)

end Binary32

section Code
variable {α : Type} [LinearOrderedField α] [FloorRing α]

/-- Lines 320-332: `getL1Distance`. -/
def getL1Distance (_Vcmd : α) : α :=
  if _Vcmd < 1.34 then
    3 / 3.0
  else if _Vcmd > 1.34 ∧ _Vcmd < 5.36 then
    _Vcmd * 2.24 / 3.0
  else
    12 / 3.0

/-- Line 32: `#define PI 3.14159265`. -/
def PI : α := 3.14159265

/-- Lines 39-94: the constructor.  `p` holds the parameters read at lines
46-59; `odom`, `map_path` and `odom_goal_pos` are default-constructed
members. -/
def L1Controller.init (p : Params α) : L1Controller α :=
  let L1 := getL1Distance p.Vcmd
  { odom := Odometry.zero
    map_path := ⟨[]⟩
    L := p.L
    Lfw := L1
    Lrv := p.Lrv
    Vcmd := p.Vcmd
    lfw := p.lfw
    lrv := p.lrv
    controller_freq := p.controller_freq
    Gas_gain := p.Gas_gain
    baseSpeed := p.baseSpeed
    baseAngle := p.baseAngle
    cmd_vel := ⟨⟨Dbl.num 1500, Dbl.num 0, Dbl.num 0⟩, ⟨Dbl.num 0, Dbl.num 0, Dbl.num 85⟩⟩
    Kp := p.Kp
    Ki := p.Ki
    cur_err := Dbl.num 0
    int_err := Dbl.num 0
    dt := 1.0 / (p.controller_freq : α)
    L1 := L1
    foundForwardPt := false
    goalRadius := L1
    odom_goal_pos := Point.zero
    goal_received := false
    goal_reached := false }

/-- Lines 138-141: `update_odom`. -/
def update_odom (s : L1Controller α) (_odom : Odometry α) : L1Controller α :=
  { s with odom := _odom }

/-- Lines 146-149: `update_globalPath`. -/
def update_globalPath (s : L1Controller α) (_path : Path α) : L1Controller α :=
  { s with map_path := _path }

/-- Lines 152-171: `update_goal`; the `catch` branch changes nothing. -/
def update_goal (tf : Transform α) (s : L1Controller α) (_goal : PoseStamped α) :
    L1Controller α :=
  match tf _goal with
  | some odom_goal =>
    { s with odom_goal_pos := odom_goal.pose.position, goal_received := true }
  | none => s

/-- Lines 173-186: `getYawFromPose`; the four quaternion components are
stored in `float` variables before `tf` converts them. -/
def getYawFromPose (m : Libm α) (carPose : Pose α) : α :=
  let x := binary32 carPose.orientation.x
  let y := binary32 carPose.orientation.y
  let z := binary32 carPose.orientation.z
  let w := binary32 carPose.orientation.w
  m.getRPY_yaw ⟨x, y, z, w⟩

/-- Lines 188-201: `isForwardWayPt`.  `car2wayPt_x`, `car2wayPt_y` and
`car_car2wayPt_x` are `float` variables: each assignment converts the
`double` value of its right-hand side. -/
def isForwardWayPt (m : Libm α) (wayPt : Point α) (carPose : Pose α) : Bool :=
  let car2wayPt_x := binary32 (wayPt.x - carPose.position.x)
  let car2wayPt_y := binary32 (wayPt.y - carPose.position.y)
  let car_theta := getYawFromPose m carPose
  let car_car2wayPt_x :=
    binary32 (m.cos car_theta * car2wayPt_x + m.sin car_theta * car2wayPt_y)
  if car_car2wayPt_x > 0 then true else false

/-- Lines 203-213: `isWayPtAwayFromLfwDist`.  The source has no `return`
after the two tests; in a linear order one of them always holds, and the
last branch below is never taken. -/
def isWayPtAwayFromLfwDist (m : Libm α) (s : L1Controller α) (wayPt car_pos : Point α) :
    Bool :=
  let dx := wayPt.x - car_pos.x
  let dy := wayPt.y - car_pos.y
  let dist := m.sqrt (dx * dx + dy * dy)
  if dist < s.Lfw then false
  else if dist ≥ s.Lfw then true
  else false

/-- Lines 224-252: the `for` loop of `get_odom_car2WayPtVec` over the
remaining waypoints; returns `(forwardPt, foundForwardPt)` at loop exit.
`forwardPt` is the value the variable holds on entry. -/
def scanPath (m : Libm α) (tf : Transform α) (s : L1Controller α) (carPose : Pose α)
    (forwardPt : Point α) : List (PoseStamped α) → Point α × Bool
  | [] => (forwardPt, false)
  | map_path_pose :: rest =>
    match tf map_path_pose with
    | some odom_path_pose =>
      let odom_path_wayPt := odom_path_pose.pose.position
      if isForwardWayPt m odom_path_wayPt carPose then
        if isWayPtAwayFromLfwDist m s odom_path_wayPt carPose.position then
          (odom_path_wayPt, true)
        else scanPath m tf s carPose forwardPt rest
      else scanPath m tf s carPose forwardPt rest
    | none => scanPath m tf s carPose forwardPt rest

/-- Lines 215-282: `get_odom_car2WayPtVec`; returns the vector and the
controller with `foundForwardPt` updated. -/
def get_odom_car2WayPtVec (m : Libm α) (tf : Transform α) (s : L1Controller α)
    (carPose : Pose α) : Point α × L1Controller α :=
  let carPose_pos := carPose.position
  let carPose_yaw := getYawFromPose m carPose
  let r : Point α × Bool :=
    if !s.goal_reached then
      scanPath m tf s carPose Point.zero s.map_path.poses
    else if s.goal_reached then
      (s.odom_goal_pos, true)
    else
      (Point.zero, false)
  let forwardPt := r.1
  let odom_car2WayPtVec : Point α :=
    { x := m.cos carPose_yaw * (forwardPt.x - carPose_pos.x)
             + m.sin carPose_yaw * (forwardPt.y - carPose_pos.y)
      y := -m.sin carPose_yaw * (forwardPt.x - carPose_pos.x)
             + m.cos carPose_yaw * (forwardPt.y - carPose_pos.y)
      z := 0 }
  (odom_car2WayPtVec, { s with foundForwardPt := r.2 })

/-- Lines 284-290: `getEta`.  The quotient of line 288 is not guarded: its
divisor can be zero, and then `eta` is `atan` of an infinity or NaN. -/
def getEta (m : Libm α) (tf : Transform α) (s : L1Controller α) (carPose : Pose α) :
    Dbl α × L1Controller α :=
  let r := get_odom_car2WayPtVec m tf s carPose
  let odom_car2WayPtVec := r.1
  let eta := m.atanQuo (Quo.div odom_car2WayPtVec.y odom_car2WayPtVec.x)
  (eta, r.2)

/-- Lines 292-301: `getCar2GoalDist`. -/
def getCar2GoalDist (m : Libm α) (s : L1Controller α) : α :=
  let car_pose := s.odom.pose.position
  let car2goal_x := s.odom_goal_pos.x - car_pose.x
  let car2goal_y := s.odom_goal_pos.y - car_pose.y
  let dist2goal := m.sqrt (car2goal_x * car2goal_x + car2goal_y * car2goal_y)
  dist2goal

/-- Lines 303-315: `goalReachingCheck`. -/
def goalReachingCheck (m : Libm α) (s : L1Controller α) : L1Controller α :=
  if s.goal_received then
    let car2goal_dist := getCar2GoalDist m s
    if car2goal_dist < s.goalRadius then
      { s with goal_reached := true, Vcmd := -5 }
    else s
  else s

/-- Lines 334-340: `getSteeringAngle` at a finite `eta`.  The quotient is
the field's: a zero denominator `Lfw / 2 + lfw * cos eta` is not modelled
(with the default parameters the denominator is at least `0.5 - 0.13`). -/
def getSteeringAngle (m : Libm α) (s : L1Controller α) (eta : α) : α :=
  let steeringAnge :=
    -m.atan ((s.L * m.sin eta) / (s.Lfw / 2 + s.lfw * m.cos eta)) * (180.0 / PI)
  steeringAnge

/-- Lines 334-340: `getSteeringAngle` at the `double` that `getEta` returns:
a NaN `eta` propagates through `sin`, `cos`, `atan` and the arithmetic. -/
def getSteeringAngleD (m : Libm α) (s : L1Controller α) : Dbl α → Dbl α
  | Dbl.num eta => Dbl.num (getSteeringAngle m s eta)
  | Dbl.nan => Dbl.nan

/-- Lines 342-348: `getGasInput` (its only call is commented out). -/
def getGasInput (s : L1Controller α) (current_v : α) : α :=
  let u := (s.Vcmd - current_v) * s.Gas_gain
  u

/-- Lines 350-393: `control_loop`; returns the controller afterwards and the
`cmd_vel` message published at line 391. -/
def control_loop (m : Libm α) (tf : Transform α) (s : L1Controller α) :
    L1Controller α × Twist (Dbl α) :=
  let carPose := s.odom.pose
  let s' : L1Controller α :=
    if s.goal_received then
      let r := getEta m tf s carPose
      let eta := r.1
      let s1 := r.2
      if s1.foundForwardPt then
        let steeringAngle := getSteeringAngleD m s1 eta
        let s2 := { s1 with cur_err := steeringAngle }
        let s3 := { s2 with
          int_err := Dbl.add s2.int_err (Dbl.mul s2.cur_err (Dbl.num s2.dt)) }
        let s4 :=
          if Dbl.ge s3.int_err 40 then { s3 with int_err := Dbl.num 40 }
          else if Dbl.le s3.int_err (-40) then { s3 with int_err := Dbl.num (-40) }
          else s3
        let s5 := { s4 with cmd_vel := { s4.cmd_vel with angular :=
          { s4.cmd_vel.angular with
            z := Dbl.add
              (Dbl.add (Dbl.num s4.baseAngle) (Dbl.mul s4.cur_err (Dbl.num s4.Kp)))
              (Dbl.mul s4.int_err (Dbl.num s4.Ki)) } } }
        if s5.Vcmd ≥ 0 then
          { s5 with cmd_vel := { s5.cmd_vel with linear :=
            { s5.cmd_vel.linear with x := Dbl.num (s5.baseSpeed : α) } } }
        else
          { s5 with cmd_vel := { s5.cmd_vel with linear :=
            { s5.cmd_vel.linear with x := Dbl.num 1500 } } }
      else
        { s1 with cmd_vel :=
            { linear := { s1.cmd_vel.linear with x := Dbl.num 1500 }
              angular := { s1.cmd_vel.angular with z := Dbl.num s1.baseAngle } } }
    else s
  (s', s'.cmd_vel)

/-! ## Callback sequences

`main` runs `ros::spin()`, which serves the three subscriber callbacks and
the two timer callbacks one at a time on a single thread. -/

/-- One callback invocation together with its input. -/
inductive Op (α : Type) where
  | update_odom (_odom : Odometry α)
  | update_globalPath (_path : Path α)
  | update_goal (tf : Transform α) (_goal : PoseStamped α)
  | goalReachingCheck
  | control_loop (tf : Transform α)

/-- The controller after one callback. -/
def step (m : Libm α) (s : L1Controller α) : Op α → L1Controller α
  | Op.update_odom o => update_odom s o
  | Op.update_globalPath p => update_globalPath s p
  | Op.update_goal tf g => update_goal tf s g
  | Op.goalReachingCheck => goalReachingCheck m s
  | Op.control_loop tf => (control_loop m tf s).1

/-- The controller after a sequence of callbacks. -/
def run (m : Libm α) (s : L1Controller α) (ops : List (Op α)) : L1Controller α :=
  ops.foldl (step m) s

/-- The states the controller can be in: constructed from some parameters,
then any sequence of callbacks. -/
def Reachable (m : Libm α) (s : L1Controller α) : Prop :=
  ∃ (p : Params α) (ops : List (Op α)), s = run m (L1Controller.init p) ops

/-! ## Specification-side notions (spec.md, section 4.1) -/

/-- Spec 4.1 `toVehicleLocal`: the vector from the vehicle position to
`point`, rotated by minus the vehicle yaw; `(forward, lateral)`.  The yaw is
the one the program extracts with `getYawFromPose`. -/
def toVehicleLocal (m : Libm α) (point : Point α) (vehiclePose : Pose α) : α × α :=
  let yaw := getYawFromPose m vehiclePose
  let dx := point.x - vehiclePose.position.x
  let dy := point.y - vehiclePose.position.y
  (m.cos yaw * dx + m.sin yaw * dy, -m.sin yaw * dx + m.cos yaw * dy)

/-- Spec 4.1 `distance`: Euclidean distance in the plane. -/
def distance (m : Libm α) (a b : Point α) : α :=
  m.sqrt ((a.x - b.x) * (a.x - b.x) + (a.y - b.y) * (a.y - b.y))

/-- Spec 4.2 step 2: waypoint `p` transforms successfully to position `q`,
which is strictly ahead of the vehicle and at least `Lfw` away from it. -/
def Qualifies (m : Libm α) (tf : Transform α) (Lfw : α) (carPose : Pose α)
    (p : PoseStamped α) (q : Point α) : Prop :=
  ∃ o, tf p = some o ∧ o.pose.position = q ∧
    0 < (toVehicleLocal m q carPose).1 ∧ Lfw ≤ distance m q carPose.position

/-- The `float` value `car_car2wayPt_x` that `isForwardWayPt` compares with
zero (lines 190-197). -/
def forwardTestValue (m : Libm α) (wayPt : Point α) (carPose : Pose α) : α :=
  binary32
    (m.cos (getYawFromPose m carPose) * binary32 (wayPt.x - carPose.position.x)
      + m.sin (getYawFromPose m carPose) * binary32 (wayPt.y - carPose.position.y))

/-- What the scan tests: waypoint `p` transforms successfully to position
`q`, the `float` forward value of `q` is positive, and `q` is at least `Lfw`
away from the vehicle. -/
def Selected (m : Libm α) (tf : Transform α) (Lfw : α) (carPose : Pose α)
    (p : PoseStamped α) (q : Point α) : Prop :=
  ∃ o, tf p = some o ∧ o.pose.position = q ∧
    0 < forwardTestValue m q carPose ∧ Lfw ≤ distance m q carPose.position

/-- What one loop iteration decides for waypoint `p`: the selected position,
if the iteration breaks out of the loop. -/
def hit (m : Libm α) (tf : Transform α) (s : L1Controller α) (carPose : Pose α)
    (p : PoseStamped α) : Option (Point α) :=
  match tf p with
  | some o =>
    if isForwardWayPt m o.pose.position carPose
        ∧ isWayPtAwayFromLfwDist m s o.pose.position carPose.position
    then some o.pose.position else none
  | none => none

/-- Clamping to `[lo, hi]` as the spec words it. -/
def clampTo (lo hi x : α) : α := max lo (min hi x)

/-- What holds in every state the controller can be in: a reached goal was
received and has forced `Vcmd` to `-5`; before any goal the held command is
the one set by the constructor. -/
def Inv (s : L1Controller α) : Prop :=
  (s.goal_reached = true → s.goal_received = true ∧ s.Vcmd = -5) ∧
  (s.goal_received = false →
    s.cmd_vel.linear.x = Dbl.num 1500 ∧ s.cmd_vel.angular.z = Dbl.num 85)

/-! ## Concrete inputs -/

/-- The default parameter values of the constructor (lines 46-59). -/
def Params.default : Params α :=
  { L := 0.26, Lfw := 0.15, Lrv := 10.0, Vcmd := 1.0, lfw := 0.13, lrv := 10.0,
    controller_freq := 20, Kp := -1.0, Gas_gain := 1.0, baseSpeed := 1470,
    baseAngle := 90.0, Ki := 0.0 }

/-- A stamped pose at `(x, y)` with the identity orientation. -/
def poseAt (x y : α) : PoseStamped α := ⟨⟨⟨x, y, 0⟩, ⟨0, 0, 0, 1⟩⟩⟩

/-- An odometry message: vehicle at rest at `(x, y)`, identity orientation. -/
def odomAt (x y : α) : Odometry α := ⟨⟨⟨x, y, 0⟩, ⟨0, 0, 0, 1⟩⟩, Twist.zero⟩

/-- An odometry message: vehicle at rest at the origin with orientation
quaternion `(0, 0, 1, 2)`, a rotation about the vertical axis whose yaw has
cosine `3/5` and sine `4/5`. -/
def odomTurned : Odometry α := ⟨⟨⟨0, 0, 0⟩, ⟨0, 0, 1, 2⟩⟩, Twist.zero⟩

/-- The waypoint `(4 - 11 / 2^25, -(3 - 1 / 2^22))`; both coordinates are
`double`s, the second is a `float` as well. -/
def poseNearAbeam : PoseStamped α :=
  poseAt (134217717 / 33554432) (-(12582911 / 4194304))

/-- Default parameters (so `Lfw = goalRadius = 1`), then odometry with the
vehicle at the origin, the given path, and a goal at `(5, 0)` transformed by
the identity: a goal is received and not reached. -/
def fixtureSeeking (path : List (PoseStamped α)) : L1Controller α :=
  update_goal some
    (update_globalPath (update_odom (L1Controller.init Params.default) (odomAt 0 0)) ⟨path⟩)
    (poseAt 5 0)

/-- Default parameters, then the odometry `odomTurned`, the one-waypoint
path `poseNearAbeam`, and a goal at `(5, 0)` transformed by the identity: a
goal is received and not reached. -/
def fixtureTurned : L1Controller α :=
  update_goal some
    (update_globalPath (update_odom (L1Controller.init Params.default) odomTurned)
      ⟨[poseNearAbeam]⟩)
    (poseAt 5 0)

/-- Default parameters, then odometry with the vehicle at the origin and a
one-waypoint path; no goal. -/
def fixtureIdle : L1Controller α :=
  update_globalPath (update_odom (L1Controller.init Params.default) (odomAt 0 0))
    ⟨[poseAt 2 0]⟩

/-- Default parameters (goal radius 1), then odometry with the vehicle at
the origin, a goal at distance 0.5 transformed by the identity, and a goal
check. -/
def fixtureReached (m : Libm α) : L1Controller α :=
  run m (L1Controller.init Params.default)
    [Op.update_odom (odomAt 0 0), Op.update_goal some (poseAt 0.5 0), Op.goalReachingCheck]

/-- A frame transform that fails for every pose with negative `x` and is
the identity elsewhere. -/
def failBehind : Transform α :=
  fun p => if p.pose.position.x < 0 then none else some p

/-- The state `fixtureReached` after the vehicle has moved on to `(1, 0)`:
the reached goal `(0.5, 0)` now lies behind it. -/
def fixturePastGoal (m : Libm α) : L1Controller α :=
  run m (fixtureReached m) [Op.update_odom (odomAt 1 0)]

/-- The state `fixtureReached` after the vehicle has moved onto the reached
goal `(0.5, 0)`. -/
def fixtureOnGoal (m : Libm α) : L1Controller α :=
  run m (fixtureReached m) [Op.update_odom (odomAt 0.5 0)]

end Code

section LibraryInstance
variable {α : Type} [LinearOrderedField α]

/-- Library functions `sqrt`, `sin`, `cos`, `atan` together with
`atan` of infinity as `2 * atan 1` and the yaw conversion of a planar
rotation: the quaternion `(0, 0, z, w)`, `w > 0`, has yaw
`2 * atan (z / w)`. -/
def Libm.planar (sqrt sin cos atan : α → α) : Libm α :=
  { sqrt := sqrt, sin := sin, cos := cos, atan := atan, atanInf := 2 * atan 1,
    getRPY_yaw := fun q => 2 * atan (q.z / q.w) }

end LibraryInstance

/-! ## The conversion to `float` -/

section Binary32Lemmas
variable {α : Type} [LinearOrderedField α] [FloorRing α]

theorem roundEven_eq_of_lt (q : α) (n : Int) (h1 : (n : α) - 1 / 2 < q)
    (h2 : q < (n : α) + 1 / 2) : roundEven q = n := by
  unfold roundEven
  by_cases hq : (n : α) ≤ q
  · have hf : ⌊q⌋ = n := by
      rw [Int.floor_eq_iff]
      exact ⟨hq, by linarith⟩
    rw [hf, if_pos (by linarith)]
  · have hq' : q < (n : α) := not_le.mp hq
    have hf : ⌊q⌋ = n - 1 := by
      rw [Int.floor_eq_iff]
      push_cast
      exact ⟨by linarith, by linarith⟩
    rw [hf]
    push_cast
    rw [if_neg (by linarith), if_pos (by linarith)]
    ring

theorem roundEven_intCast (n : Int) : roundEven (n : α) = n :=
  roundEven_eq_of_lt (n : α) n (by linarith) (by linarith)

theorem floor_le_roundEven (q : α) : ⌊q⌋ ≤ roundEven q := by
  unfold roundEven
  split_ifs <;> omega

theorem log_two_eq (r : α) (e : Int) (hr : 0 < r) (h1 : (2 : α) ^ e ≤ r)
    (h2 : r < (2 : α) ^ (e + 1)) : Int.log 2 r = e := by
  have ha : e ≤ Int.log 2 r :=
    (Int.zpow_le_iff_le_log (by norm_num) hr).mp (by exact_mod_cast h1)
  have hb : Int.log 2 r < e + 1 :=
    (Int.lt_zpow_iff_log_lt (by norm_num) hr).mp (by exact_mod_cast h2)
  omega

/-- Evaluation of `binary32` from the binade of `x` and the rounded
significand. -/
theorem binary32_eq (x : α) (e n : Int) (hx : x ≠ 0) (h1 : (2 : α) ^ e ≤ |x|)
    (h2 : |x| < (2 : α) ^ (e + 1)) (hn : roundEven (x / 2 ^ (e - 23)) = n) :
    binary32 x = (n : α) * 2 ^ (e - 23) := by
  unfold binary32
  rw [if_neg hx, log_two_eq |x| e (abs_pos.mpr hx) h1 h2, hn]

theorem binary32_zero : binary32 (0 : α) = 0 := by
  unfold binary32
  rw [if_pos rfl]

theorem binary32_pos (x : α) (hx : 0 < x) : 0 < binary32 x := by
  unfold binary32
  rw [if_neg (ne_of_gt hx), abs_of_pos hx]
  have hp : (0 : α) < 2 ^ (Int.log 2 x - 23) := zpow_pos (by norm_num) _
  have hle : (2 : α) ^ Int.log 2 x ≤ x := by
    have h := Int.zpow_log_le_self (b := 2) (r := x) (by norm_num) hx
    exact_mod_cast h
  have hq : (1 : α) ≤ x / 2 ^ (Int.log 2 x - 23) := by
    rw [le_div_iff₀ hp, one_mul]
    refine le_trans ?_ hle
    exact zpow_le_zpow_right₀ (by norm_num) (by omega)
  have hfl : (1 : Int) ≤ ⌊x / 2 ^ (Int.log 2 x - 23)⌋ := Int.le_floor.mpr (by exact_mod_cast hq)
  have hr : (1 : Int) ≤ roundEven (x / 2 ^ (Int.log 2 x - 23)) :=
    le_trans hfl (floor_le_roundEven _)
  have hr' : (0 : α) < (roundEven (x / 2 ^ (Int.log 2 x - 23)) : α) := by
    exact_mod_cast (by omega : (0 : Int) < roundEven (x / 2 ^ (Int.log 2 x - 23)))
  exact mul_pos hr' hp

theorem binary32_one : binary32 (1 : α) = 1 := by
  rw [binary32_eq 1 0 8388608 one_ne_zero (by norm_num) (by norm_num)
    (by
      have h : (1 : α) / 2 ^ ((0 : Int) - 23) = ((8388608 : Int) : α) := by norm_num
      rw [h, roundEven_intCast])]
  norm_num

theorem binary32_two : binary32 (2 : α) = 2 := by
  rw [binary32_eq 2 1 8388608 two_ne_zero (by norm_num) (by norm_num)
    (by
      have h : (2 : α) / 2 ^ ((1 : Int) - 23) = ((8388608 : Int) : α) := by norm_num
      rw [h, roundEven_intCast])]
  norm_num

end Binary32Lemmas

/-! ## Lemmas that do not involve the conversion to `float` -/

section Basics
variable {α : Type} [LinearOrderedField α]

theorem isWayPtAwayFromLfwDist_iff (m : Libm α) (s : L1Controller α) (w c : Point α) :
    isWayPtAwayFromLfwDist m s w c = true ↔ s.Lfw ≤ distance m w c := by
  unfold isWayPtAwayFromLfwDist distance
  by_cases h : m.sqrt ((w.x - c.x) * (w.x - c.x) + (w.y - c.y) * (w.y - c.y)) < s.Lfw
  · simp [h]
  · have h' := not_lt.mp h
    simp [h, h']

theorem atanQuo_div_of_ne (m : Libm α) (y x : α) (hx : x ≠ 0) :
    m.atanQuo (Quo.div y x) = Dbl.num (m.atan (y / x)) := by
  unfold Quo.div
  rw [if_pos hx]
  rfl

theorem atanQuo_div_zero_zero (m : Libm α) : m.atanQuo (Quo.div (0 : α) 0) = Dbl.nan := by
  unfold Quo.div
  simp [Libm.atanQuo]

theorem clamp_branches (x : α) :
    (if x ≥ 40 then (40 : α) else if x ≤ -40 then -40 else x) = clampTo (-40) 40 x := by
  unfold clampTo
  by_cases h1 : x ≥ 40
  · rw [if_pos h1, min_eq_left h1, max_eq_right (by norm_num)]
  · rw [if_neg h1, min_eq_right (le_of_lt (not_le.mp h1))]
    by_cases h2 : x ≤ -40
    · rw [if_pos h2, max_eq_left h2]
    · rw [if_neg h2, max_eq_right (le_of_lt (not_le.mp h2))]

theorem goalReachingCheck_frame (m : Libm α) (s : L1Controller α) :
    (goalReachingCheck m s).goal_received = s.goal_received ∧
    (goalReachingCheck m s).int_err = s.int_err ∧
    (goalReachingCheck m s).cmd_vel = s.cmd_vel ∧
    (s.goal_reached = true → (goalReachingCheck m s).goal_reached = true) ∧
    ((goalReachingCheck m s).goal_reached = true →
      s.goal_reached = true ∨
        (s.goal_received = true ∧ (goalReachingCheck m s).Vcmd = -5)) ∧
    (s.Vcmd = -5 → (goalReachingCheck m s).Vcmd = -5) := by
  unfold goalReachingCheck
  dsimp only
  split_ifs with h1
  · exact ⟨rfl, rfl, rfl, fun _ => rfl, fun _ => Or.inr ⟨h1, rfl⟩, fun _ => rfl⟩
  · exact ⟨rfl, rfl, rfl, id, Or.inl, id⟩
  · exact ⟨rfl, rfl, rfl, id, Or.inl, id⟩

theorem Inv_init (p : Params α) : Inv (L1Controller.init p) := by
  unfold Inv L1Controller.init
  simp

end Basics
/-! ## Lemmas on the waypoint scan -/

section ScanLemmas
variable {α : Type} [LinearOrderedField α] [FloorRing α]

theorem isForwardWayPt_iff (m : Libm α) (w : Point α) (c : Pose α) :
    isForwardWayPt m w c = true ↔ 0 < forwardTestValue m w c := by
  unfold isForwardWayPt forwardTestValue
  simp only [gt_iff_lt]
  split <;> simp_all

theorem hit_eq_some_iff (m : Libm α) (tf : Transform α) (s : L1Controller α)
    (c : Pose α) (p : PoseStamped α) (q : Point α) :
    hit m tf s c p = some q ↔ Selected m tf s.Lfw c p q := by
  unfold hit Selected
  cases htf : tf p with
  | none => simp
  | some o =>
    simp only [Option.some.injEq, exists_eq_left']
    by_cases hq : isForwardWayPt m o.pose.position c = true
        ∧ isWayPtAwayFromLfwDist m s o.pose.position c.position = true
    · rw [if_pos hq]
      constructor
      · intro h
        have h' : o.pose.position = q := Option.some.inj h
        subst h'
        exact ⟨rfl, (isForwardWayPt_iff m _ c).mp hq.1,
          (isWayPtAwayFromLfwDist_iff m s _ _).mp hq.2⟩
      · rintro ⟨h1, _, _⟩
        rw [h1]
    · rw [if_neg hq]
      constructor
      · intro h; cases h
      · rintro ⟨h1, h2, h3⟩
        subst h1
        exact absurd ⟨(isForwardWayPt_iff m _ c).mpr h2,
          (isWayPtAwayFromLfwDist_iff m s _ _).mpr h3⟩ hq

theorem scanPath_cons (m : Libm α) (tf : Transform α) (s : L1Controller α)
    (c : Pose α) (fp : Point α) (p : PoseStamped α) (rest : List (PoseStamped α)) :
    scanPath m tf s c fp (p :: rest) =
      match hit m tf s c p with
      | some q => (q, true)
      | none => scanPath m tf s c fp rest := by
  unfold hit
  rw [scanPath]
  cases htf : tf p with
  | none => rfl
  | some o =>
    by_cases h1 : isForwardWayPt m o.pose.position c = true
    · by_cases h2 : isWayPtAwayFromLfwDist m s o.pose.position c.position = true
      · simp [h1, h2]
      · simp [h1, h2]
    · simp [h1]

theorem scanPath_found_iff (m : Libm α) (tf : Transform α) (s : L1Controller α)
    (c : Pose α) (fp : Point α) (l : List (PoseStamped α)) :
    (scanPath m tf s c fp l).2 = true ↔ ∃ p ∈ l, ∃ q, Selected m tf s.Lfw c p q := by
  induction l with
  | nil => simp [scanPath]
  | cons p rest ih =>
    rw [scanPath_cons]
    cases hh : hit m tf s c p with
    | some q =>
      simp only [true_iff]
      exact ⟨p, List.mem_cons_self _ _, q, (hit_eq_some_iff m tf s c p q).mp hh⟩
    | none =>
      simp only [ih, List.mem_cons]
      constructor
      · rintro ⟨p', hp', q, hq⟩
        exact ⟨p', Or.inr hp', q, hq⟩
      · rintro ⟨p', hp' | hp', q, hq⟩
        · subst hp'
          rw [(hit_eq_some_iff m tf s c p' q).mpr hq] at hh
          cases hh
        · exact ⟨p', hp', q, hq⟩

theorem scanPath_first (m : Libm α) (tf : Transform α) (s : L1Controller α)
    (c : Pose α) (fp : Point α) (l : List (PoseStamped α))
    (hf : (scanPath m tf s c fp l).2 = true) :
    ∃ i p, l[i]? = some p ∧ Selected m tf s.Lfw c p (scanPath m tf s c fp l).1 ∧
      ∀ j : Nat, j < i → ∀ p' q', l[j]? = some p' → ¬ Selected m tf s.Lfw c p' q' := by
  induction l with
  | nil => simp [scanPath] at hf
  | cons p rest ih =>
    rw [scanPath_cons] at hf ⊢
    cases hh : hit m tf s c p with
    | some q =>
      refine ⟨0, p, by simp, (hit_eq_some_iff m tf s c p q).mp hh, ?_⟩
      intro j hj
      exact absurd hj (Nat.not_lt_zero j)
    | none =>
      rw [hh] at hf
      obtain ⟨i, p', hi, hq, hmin⟩ := ih hf
      refine ⟨i + 1, p', by simpa using hi, hq, ?_⟩
      intro j hj p'' q' hj' hq'
      cases j with
      | zero =>
        simp only [List.getElem?_cons_zero, Option.some.injEq] at hj'
        subst hj'
        rw [(hit_eq_some_iff m tf s c p q').mpr hq'] at hh
        cases hh
      | succ k =>
        simp only [List.getElem?_cons_succ] at hj'
        exact hmin k (Nat.lt_of_succ_lt_succ hj) p'' q' hj' hq'

theorem hit_of_transform_fails (m : Libm α) (tf : Transform α) (s : L1Controller α)
    (c : Pose α) (p : PoseStamped α) (h : tf p = none) : hit m tf s c p = none := by
  unfold hit
  rw [h]

theorem scanPath_eraseIdx (m : Libm α) (tf : Transform α) (s : L1Controller α)
    (c : Pose α) (fp : Point α) (l : List (PoseStamped α)) :
    ∀ (i : Nat) (p : PoseStamped α), l[i]? = some p → tf p = none →
      scanPath m tf s c fp (l.eraseIdx i) = scanPath m tf s c fp l := by
  induction l with
  | nil => intro i p hi; simp at hi
  | cons a rest ih =>
    intro i p hi hp
    cases i with
    | zero =>
      simp only [List.getElem?_cons_zero, Option.some.injEq] at hi
      subst hi
      rw [List.eraseIdx_cons_zero, scanPath_cons, hit_of_transform_fails m tf s c a hp]
    | succ k =>
      simp only [List.getElem?_cons_succ] at hi
      rw [List.eraseIdx_cons_succ, scanPath_cons, scanPath_cons, ih k p hi hp]

theorem scanPath_Lfw_only (m : Libm α) (tf : Transform α) (s t : L1Controller α)
    (c : Pose α) (fp : Point α) (l : List (PoseStamped α)) (h : s.Lfw = t.Lfw) :
    scanPath m tf s c fp l = scanPath m tf t c fp l := by
  induction l with
  | nil => rfl
  | cons a rest ih =>
    rw [scanPath_cons, scanPath_cons, ih]
    have : hit m tf s c a = hit m tf t c a := by
      unfold hit isWayPtAwayFromLfwDist
      rw [h]
    rw [this]

/-- With the goal not reached, the found flag and the returned vector are
those of the waypoint the scan stops at. -/
theorem vec_of_scan (m : Libm α) (tf : Transform α) (s : L1Controller α)
    (carPose : Pose α) (hgoal : s.goal_reached = false) :
    (get_odom_car2WayPtVec m tf s carPose).2.foundForwardPt
      = (scanPath m tf s carPose Point.zero s.map_path.poses).2 ∧
    (get_odom_car2WayPtVec m tf s carPose).1.x
      = (toVehicleLocal m (scanPath m tf s carPose Point.zero s.map_path.poses).1 carPose).1 ∧
    (get_odom_car2WayPtVec m tf s carPose).1.y
      = (toVehicleLocal m (scanPath m tf s carPose Point.zero s.map_path.poses).1 carPose).2 := by
  refine ⟨?_, ?_, ?_⟩
  · simp [get_odom_car2WayPtVec, hgoal]
  · simp [get_odom_car2WayPtVec, hgoal, toVehicleLocal]
  · simp [get_odom_car2WayPtVec, hgoal, toVehicleLocal]

theorem vec_of_goal_reached (m : Libm α) (tf : Transform α) (s : L1Controller α)
    (carPose : Pose α) (h : s.goal_reached = true) :
    (get_odom_car2WayPtVec m tf s carPose).2.foundForwardPt = true ∧
    (get_odom_car2WayPtVec m tf s carPose).1.x
      = (toVehicleLocal m s.odom_goal_pos carPose).1 ∧
    (get_odom_car2WayPtVec m tf s carPose).1.y
      = (toVehicleLocal m s.odom_goal_pos carPose).2 := by
  refine ⟨?_, ?_, ?_⟩
  · simp [get_odom_car2WayPtVec, h]
  · simp [get_odom_car2WayPtVec, h, toVehicleLocal]
  · simp [get_odom_car2WayPtVec, h, toVehicleLocal]

/-- The scan on a one-waypoint path whose waypoint passes both tests. -/
theorem scanPath_single (m : Libm α) (tf : Transform α) (s : L1Controller α)
    (c : Pose α) (p o : PoseStamped α) (htf : tf p = some o)
    (hfwd : 0 < forwardTestValue m o.pose.position c)
    (hdist : s.Lfw ≤ distance m o.pose.position c.position) :
    scanPath m tf s c Point.zero [p] = (o.pose.position, true) := by
  have hhit : hit m tf s c p = some o.pose.position :=
    (hit_eq_some_iff m tf s c p o.pose.position).mpr ⟨o, htf, rfl, hfwd, hdist⟩
  rw [scanPath_cons, hhit]

theorem getEta_eq (m : Libm α) (tf : Transform α) (s : L1Controller α) (carPose : Pose α) :
    (getEta m tf s carPose).1
      = m.atanQuo (Quo.div (get_odom_car2WayPtVec m tf s carPose).1.y
          (get_odom_car2WayPtVec m tf s carPose).1.x) ∧
    (getEta m tf s carPose).2 = (get_odom_car2WayPtVec m tf s carPose).2 :=
  ⟨rfl, rfl⟩

end ScanLemmas

/-! ## Lookahead calibration -/

section Calibration
variable {α : Type} [LinearOrderedField α]

theorem getL1Distance_mid (v : α) (h1 : 1.34 < v) (h2 : v < 5.36) :
    getL1Distance v = v * 2.24 / 3.0 := by
  unfold getL1Distance
  rw [if_neg (not_lt.mpr h1.le), if_pos ⟨h1, h2⟩]

/-- C3: at the boundary speed 1.34 the code takes the final `else` branch:
`getL1Distance 1.34` is `12 / 3.0 = 4`, not `1.34 * 2.24 / 3.0`. -/
theorem getL1Distance_at_lower_boundary :
    getL1Distance (1.34 : ℚ) = 4 ∧ getL1Distance (1.34 : ℚ) ≠ 1.34 * 2.24 / 3.0 := by
  have h : getL1Distance (1.34 : ℚ) = 4 := by
    unfold getL1Distance
    norm_num
  refine ⟨h, ?_⟩
  rw [h]
  norm_num

end Calibration

/-! ## Lookahead calibration: the clamp branches and the range -/

section CalibrationRange
variable {α : Type} [LinearOrderedField α]

/-- C12: for every speed below 1.34 the lookahead is exactly 1.0, and for
every speed of at least 5.36 it is exactly 4.0. -/
theorem getL1Distance_clamps (v : α) :
    (v < 1.34 → getL1Distance v = 1.0) ∧ (5.36 ≤ v → getL1Distance v = 4.0) := by
  unfold getL1Distance
  constructor
  · intro h
    rw [if_pos h]
    norm_num
  · intro h
    have h1 : ¬ v < 1.34 := not_lt.mpr (le_trans (by norm_num) h)
    have h2 : ¬ (v > 1.34 ∧ v < 5.36) := fun hc => absurd hc.2 (not_lt.mpr h)
    rw [if_neg h1, if_neg h2]
    norm_num

/-- C12 at the speeds 0.5 and 5.36. -/
theorem getL1Distance_clamps_witness :
    getL1Distance (0.5 : ℚ) = 1.0 ∧ getL1Distance (5.36 : ℚ) = 4.0 :=
  ⟨(getL1Distance_clamps (0.5 : ℚ)).1 (by norm_num),
    (getL1Distance_clamps (5.36 : ℚ)).2 (le_refl _)⟩

/-- C20, as stated, fails: at speed 5.359 the middle branch gives
`5.359 * 2.24 / 3.0`, which exceeds 4.0. -/
theorem getL1Distance_exceeds_four :
    ¬ (1.0 ≤ getL1Distance (5.359 : ℚ) ∧ getL1Distance (5.359 : ℚ) ≤ 4.0) := by
  have h : getL1Distance (5.359 : ℚ) = 5.359 * 2.24 / 3.0 := by
    unfold getL1Distance
    norm_num
  rw [h]
  norm_num

/-- C20, amended: for every speed the lookahead is at least 1.0 and strictly
below `5.36 * 2.24 / 3.0`; it is at most 4.0 for every speed outside the
open interval between `12 / 2.24` and `5.36`. -/
theorem getL1Distance_range (v : α) :
    1.0 ≤ getL1Distance v ∧ getL1Distance v < 5.36 * 2.24 / 3.0 ∧
    (¬ (12 / 2.24 < v ∧ v < 5.36) → getL1Distance v ≤ 4.0) := by
  unfold getL1Distance
  by_cases h1 : v < 1.34
  · rw [if_pos h1]
    refine ⟨by norm_num, by norm_num, fun _ => by norm_num⟩
  · rw [if_neg h1]
    by_cases h2 : v > 1.34 ∧ v < 5.36
    · rw [if_pos h2]
      obtain ⟨h3, h4⟩ := h2
      refine ⟨?_, ?_, ?_⟩
      · rw [le_div_iff₀ (by norm_num)]
        have : (1.0 : α) * 3.0 ≤ 1.34 * 2.24 := by norm_num
        exact le_trans this (le_of_lt (mul_lt_mul_of_pos_right h3 (by norm_num)))
      · exact div_lt_div_of_pos_right (mul_lt_mul_of_pos_right h4 (by norm_num)) (by norm_num)
      · intro h5
        have h6 : v ≤ 12 / 2.24 := by
          by_contra hc
          exact h5 ⟨not_le.mp hc, h4⟩
        rw [div_le_iff₀ (by norm_num)]
        have h7 : v * 2.24 ≤ 12 / 2.24 * 2.24 :=
          mul_le_mul_of_nonneg_right h6 (by norm_num)
        have h8 : (12 : α) / 2.24 * 2.24 = 4.0 * 3.0 := by norm_num
        rw [h8] at h7
        exact h7
    · rw [if_neg h2]
      refine ⟨by norm_num, by norm_num, fun _ => by norm_num⟩

end CalibrationRange

/-! ## Goal monitor -/

section GoalMonitor
variable {α : Type} [LinearOrderedField α]

theorem getCar2GoalDist_eq_distance (m : Libm α) (s : L1Controller α) :
    getCar2GoalDist m s = distance m s.odom.pose.position s.odom_goal_pos := by
  unfold getCar2GoalDist distance
  ring_nf

/-- C5: `goalReachingCheck` sets `goal_reached` and forces `Vcmd` to `-5`
when a goal has been received and the Euclidean distance from the odometry
position to the cached goal is strictly below `goalRadius`; in every other
case it leaves `goal_reached` and `Vcmd` (indeed the whole controller)
unchanged. -/
theorem goalReachingCheck_fires_iff (m : Libm α) (s : L1Controller α) :
    ((s.goal_received = true ∧
        distance m s.odom.pose.position s.odom_goal_pos < s.goalRadius) →
      (goalReachingCheck m s).goal_reached = true ∧ (goalReachingCheck m s).Vcmd = -5) ∧
    (¬ (s.goal_received = true ∧
        distance m s.odom.pose.position s.odom_goal_pos < s.goalRadius) →
      (goalReachingCheck m s).goal_reached = s.goal_reached ∧
      (goalReachingCheck m s).Vcmd = s.Vcmd ∧ goalReachingCheck m s = s) := by
  rw [← getCar2GoalDist_eq_distance]
  unfold goalReachingCheck
  constructor
  · rintro ⟨hg, hd⟩
    simp [hg, hd]
  · intro h
    by_cases hg : s.goal_received = true
    · have hd : ¬ getCar2GoalDist m s < s.goalRadius := fun hd => h ⟨hg, hd⟩
      simp [hg, hd]
    · simp [hg]

end GoalMonitor

/-! ## Control tick -/

section Tick
variable {α : Type} [LinearOrderedField α] [FloorRing α]

theorem getEta_state (m : Libm α) (tf : Transform α) (s : L1Controller α) (c : Pose α) :
    (getEta m tf s c).2 = { s with foundForwardPt := (getEta m tf s c).2.foundForwardPt } := by
  simp [getEta, get_odom_car2WayPtVec]

/-- The tick without a goal: nothing changes and the held command is
published. -/
theorem control_loop_no_goal (m : Libm α) (tf : Transform α) (s : L1Controller α)
    (hg : s.goal_received = false) :
    control_loop m tf s = (s, s.cmd_vel) := by
  unfold control_loop
  simp [hg]

/-- The tick with a goal but no target. -/
theorem control_loop_not_found (m : Libm α) (tf : Transform α) (s : L1Controller α)
    (hg : s.goal_received = true)
    (hf : (getEta m tf s s.odom.pose).2.foundForwardPt = false) :
    (control_loop m tf s).1.foundForwardPt = false ∧
    (control_loop m tf s).1.int_err = s.int_err ∧
    (control_loop m tf s).2.linear.x = Dbl.num 1500 ∧
    (control_loop m tf s).2.angular.z = Dbl.num s.baseAngle := by
  have hs := getEta_state m tf s s.odom.pose
  rw [hf] at hs
  unfold control_loop
  simp only [hg, if_true, hf]
  rw [hs]
  simp

/-- The published speed of a tick with a goal and a target, whatever `eta`
is. -/
theorem control_loop_found_speed (m : Libm α) (tf : Transform α) (s : L1Controller α)
    (hg : s.goal_received = true)
    (hf : (getEta m tf s s.odom.pose).2.foundForwardPt = true) :
    (control_loop m tf s).1.foundForwardPt = true ∧
    (control_loop m tf s).2.linear.x
      = (if s.Vcmd ≥ 0 then Dbl.num (s.baseSpeed : α) else Dbl.num 1500) := by
  have hs := getEta_state m tf s s.odom.pose
  rw [hf] at hs
  unfold control_loop
  simp only [hg, if_true, hf]
  rw [hs]
  dsimp only
  refine ⟨?_, ?_⟩ <;> split_ifs <;> rfl

/-- The tick with a goal and a target when `eta` is NaN: the NaN reaches
`cur_err`, passes both clamp comparisons into `int_err`, and reaches the
steering command. -/
theorem control_loop_found_nan (m : Libm α) (tf : Transform α) (s : L1Controller α)
    (hg : s.goal_received = true)
    (hf : (getEta m tf s s.odom.pose).2.foundForwardPt = true)
    (heta : (getEta m tf s s.odom.pose).1 = Dbl.nan) :
    (control_loop m tf s).1.cur_err = Dbl.nan ∧
    (control_loop m tf s).1.int_err = Dbl.nan ∧
    (control_loop m tf s).2.angular.z = Dbl.nan := by
  have hs := getEta_state m tf s s.odom.pose
  rw [hf] at hs
  unfold control_loop
  simp only [hg, if_true, hf, heta]
  rw [hs]
  have hadd : ∀ a : Dbl α, Dbl.add a (Dbl.mul Dbl.nan (Dbl.num s.dt)) = Dbl.nan := by
    intro a
    cases a <;> rfl
  simp only [getSteeringAngleD, hadd, Dbl.ge, Dbl.le, Bool.false_eq_true, if_false]
  refine ⟨?_, ?_, ?_⟩ <;> split_ifs <;> rfl

/-- The tick with a goal and a target when `eta` and the old `int_err` are
finite: the PI update with the clamp. -/
theorem control_loop_found_num (m : Libm α) (tf : Transform α) (s : L1Controller α)
    (e i : α) (hg : s.goal_received = true)
    (hf : (getEta m tf s s.odom.pose).2.foundForwardPt = true)
    (heta : (getEta m tf s s.odom.pose).1 = Dbl.num e) (hi : s.int_err = Dbl.num i) :
    (control_loop m tf s).1.cur_err = Dbl.num (getSteeringAngle m s e) ∧
    (control_loop m tf s).1.int_err
        = Dbl.num (clampTo (-40) 40 (i + getSteeringAngle m s e * s.dt)) ∧
    (control_loop m tf s).2.angular.z
        = Dbl.num (s.baseAngle + getSteeringAngle m s e * s.Kp
            + clampTo (-40) 40 (i + getSteeringAngle m s e * s.dt) * s.Ki) := by
  have hs := getEta_state m tf s s.odom.pose
  rw [hf] at hs
  have hsteer : getSteeringAngle m (getEta m tf s s.odom.pose).2 e
      = getSteeringAngle m s e := by
    rw [hs]; rfl
  have hdt : (getEta m tf s s.odom.pose).2.dt = s.dt := by rw [hs]
  have hint : (getEta m tf s s.odom.pose).2.int_err = Dbl.num i := by rw [hs]; exact hi
  rw [← clamp_branches]
  unfold control_loop
  simp only [hg, if_true, hf, heta, getSteeringAngleD, hsteer, hdt, hint, Dbl.add, Dbl.mul,
    Dbl.ge, Dbl.le]
  by_cases h1 : i + getSteeringAngle m s e * s.dt ≥ 40
  · simp only [h1, decide_True, if_true]
    rw [hs]
    refine ⟨?_, ?_, ?_⟩ <;> split_ifs <;> rfl
  · by_cases h2 : i + getSteeringAngle m s e * s.dt ≤ -40
    · simp only [h1, h2, decide_True, decide_False, if_true, if_false, Bool.false_eq_true]
      rw [hs]
      refine ⟨?_, ?_, ?_⟩ <;> split_ifs <;> rfl
    · simp only [h1, h2, decide_False, if_false, Bool.false_eq_true]
      rw [hs]
      refine ⟨?_, ?_, ?_⟩ <;> split_ifs <;> rfl

/-- Fields no tick writes. -/
theorem control_loop_frame (m : Libm α) (tf : Transform α) (s : L1Controller α) :
    (control_loop m tf s).1.goal_reached = s.goal_reached ∧
    (control_loop m tf s).1.goal_received = s.goal_received ∧
    (control_loop m tf s).1.Vcmd = s.Vcmd ∧
    (control_loop m tf s).1.Lfw = s.Lfw ∧
    (control_loop m tf s).1.goalRadius = s.goalRadius ∧
    (control_loop m tf s).1.odom = s.odom ∧
    (control_loop m tf s).1.odom_goal_pos = s.odom_goal_pos := by
  unfold control_loop
  dsimp only
  split_ifs <;> exact ⟨rfl, rfl, rfl, rfl, rfl, rfl, rfl⟩

/-- With the goal reached the target is the goal and is always found. -/
theorem getEta_found_of_goal_reached (m : Libm α) (tf : Transform α) (s : L1Controller α)
    (c : Pose α) (h : s.goal_reached = true) :
    (getEta m tf s c).2.foundForwardPt = true := by
  simp [getEta, get_odom_car2WayPtVec, h]

/-- A NaN in `int_err` stays through every tick. -/
theorem control_loop_int_err_nan (m : Libm α) (tf : Transform α) (s : L1Controller α)
    (h : s.int_err = Dbl.nan) : (control_loop m tf s).1.int_err = Dbl.nan := by
  cases hg : s.goal_received with
  | false => rw [control_loop_no_goal m tf s hg]; exact h
  | true =>
    cases hf : (getEta m tf s s.odom.pose).2.foundForwardPt with
    | false => rw [(control_loop_not_found m tf s hg hf).2.1]; exact h
    | true =>
      have hs := getEta_state m tf s s.odom.pose
      rw [hf] at hs
      unfold control_loop
      simp only [hg, if_true, hf]
      rw [hs]
      have hadd : ∀ b : Dbl α, Dbl.add Dbl.nan b = Dbl.nan := by
        intro b
        cases b <;> rfl
      simp only [h, hadd, Dbl.ge, Dbl.le, Bool.false_eq_true, if_false]
      split_ifs <;> rfl

end Tick
/-! ## Invariants of callback sequences -/

section GoalUpdate
variable {α : Type}

theorem update_goal_frame (tf : Transform α) (s : L1Controller α) (g : PoseStamped α) :
    (update_goal tf s g).goal_reached = s.goal_reached ∧
    (update_goal tf s g).Vcmd = s.Vcmd ∧
    (update_goal tf s g).int_err = s.int_err ∧
    (update_goal tf s g).cmd_vel = s.cmd_vel ∧
    (s.goal_received = true → (update_goal tf s g).goal_received = true) := by
  unfold update_goal
  cases tf g with
  | none => exact ⟨rfl, rfl, rfl, rfl, id⟩
  | some o => exact ⟨rfl, rfl, rfl, rfl, fun _ => rfl⟩

end GoalUpdate

section Sequences
variable {α : Type} [LinearOrderedField α] [FloorRing α]

theorem run_cons (m : Libm α) (s : L1Controller α) (op : Op α) (ops : List (Op α)) :
    run m s (op :: ops) = run m (step m s op) ops := rfl

/-- A property kept by every callback holds after every callback sequence. -/
theorem run_invariant (m : Libm α) (P : L1Controller α → Prop)
    (hstep : ∀ s op, P s → P (step m s op)) (ops : List (Op α)) :
    ∀ s, P s → P (run m s ops) := by
  induction ops with
  | nil => intro s hs; exact hs
  | cons op ops ih => intro s hs; rw [run_cons]; exact ih _ (hstep s op hs)

theorem step_goal_reached (m : Libm α) (s : L1Controller α) (op : Op α)
    (h : s.goal_reached = true) : (step m s op).goal_reached = true := by
  cases op with
  | update_odom o => exact h
  | update_globalPath p => exact h
  | update_goal tf g =>
    show (update_goal tf s g).goal_reached = true
    rw [(update_goal_frame tf s g).1]; exact h
  | goalReachingCheck => exact (goalReachingCheck_frame m s).2.2.2.1 h
  | control_loop tf =>
    show (control_loop m tf s).1.goal_reached = true
    rw [(control_loop_frame m tf s).1]; exact h

/-- A NaN in `int_err` stays through every callback. -/
theorem step_int_err_nan (m : Libm α) (s : L1Controller α) (op : Op α)
    (h : s.int_err = Dbl.nan) : (step m s op).int_err = Dbl.nan := by
  cases op with
  | update_odom o => exact h
  | update_globalPath p => exact h
  | update_goal tf g =>
    show (update_goal tf s g).int_err = Dbl.nan
    rw [(update_goal_frame tf s g).2.2.1]; exact h
  | goalReachingCheck =>
    show (goalReachingCheck m s).int_err = Dbl.nan
    rw [(goalReachingCheck_frame m s).2.1]; exact h
  | control_loop tf => exact control_loop_int_err_nan m tf s h

theorem Inv_step (m : Libm α) (s : L1Controller α) (op : Op α) (h : Inv s) :
    Inv (step m s op) := by
  obtain ⟨h1, h2⟩ := h
  cases op with
  | update_odom o => exact ⟨h1, h2⟩
  | update_globalPath p => exact ⟨h1, h2⟩
  | update_goal tf g =>
    show Inv (update_goal tf s g)
    obtain ⟨f1, f2, _, f4, f5⟩ := update_goal_frame tf s g
    refine ⟨?_, ?_⟩
    · rw [f1, f2]
      intro hr
      exact ⟨f5 (h1 hr).1, (h1 hr).2⟩
    · rw [f4]
      intro hg
      apply h2
      cases hs : s.goal_received with
      | false => rfl
      | true => rw [f5 hs] at hg; cases hg
  | goalReachingCheck =>
    show Inv (goalReachingCheck m s)
    obtain ⟨f1, _, f3, _, f5, f6⟩ := goalReachingCheck_frame m s
    refine ⟨?_, ?_⟩
    · rw [f1]
      intro hr
      rcases f5 hr with h | ⟨hg, hv⟩
      · exact ⟨(h1 h).1, f6 (h1 h).2⟩
      · exact ⟨hg, hv⟩
    · rw [f1, f3]; exact h2
  | control_loop tf =>
    show Inv (control_loop m tf s).1
    obtain ⟨f1, f2, f3, _⟩ := control_loop_frame m tf s
    refine ⟨?_, ?_⟩
    · rw [f1, f2, f3]; exact h1
    · rw [f2]
      intro hg
      rw [control_loop_no_goal m tf s hg]
      exact h2 hg

theorem Inv_of_Reachable (m : Libm α) (s : L1Controller α) (h : Reachable m s) : Inv s := by
  obtain ⟨p, ops, rfl⟩ := h
  exact run_invariant m Inv (Inv_step m) ops _ (Inv_init p)

theorem step_radii (m : Libm α) (s : L1Controller α) (op : Op α) :
    (step m s op).Lfw = s.Lfw ∧ (step m s op).goalRadius = s.goalRadius := by
  cases op with
  | update_odom o => exact ⟨rfl, rfl⟩
  | update_globalPath p => exact ⟨rfl, rfl⟩
  | update_goal tf g =>
    show (update_goal tf s g).Lfw = s.Lfw ∧ (update_goal tf s g).goalRadius = s.goalRadius
    unfold update_goal
    cases tf g <;> exact ⟨rfl, rfl⟩
  | goalReachingCheck =>
    show (goalReachingCheck m s).Lfw = s.Lfw ∧ (goalReachingCheck m s).goalRadius = s.goalRadius
    unfold goalReachingCheck
    dsimp only
    split_ifs <;> exact ⟨rfl, rfl⟩
  | control_loop tf =>
    exact ⟨(control_loop_frame m tf s).2.2.2.1, (control_loop_frame m tf s).2.2.2.2.1⟩

end Sequences

/-! ## Main results on the control tick and on callback sequences -/

section MainResults
variable {α : Type} [LinearOrderedField α] [FloorRing α]

/-- C4: once `goal_reached` is true it is true after every further sequence
of callbacks, new goals and odometry outside the goal radius included. -/
theorem goal_reached_is_terminal (m : Libm α) (s : L1Controller α)
    (h : s.goal_reached = true) (ops : List (Op α)) :
    (run m s ops).goal_reached = true :=
  run_invariant m (fun t => t.goal_reached = true) (step_goal_reached m) ops s h

/-- C8: in every state reachable from startup with `goal_reached` true,
after any further callbacks (new paths, odometry, goals), every control tick
publishes speed 1500. -/
theorem control_loop_stops_after_goal (m : Libm α) (s : L1Controller α)
    (hreach : Reachable m s) (hr : s.goal_reached = true)
    (ops : List (Op α)) (tf : Transform α) :
    (control_loop m tf (run m s ops)).2.linear.x = Dbl.num 1500 := by
  have hinv : Inv (run m s ops) :=
    run_invariant m Inv (Inv_step m) ops s (Inv_of_Reachable m s hreach)
  have hr' : (run m s ops).goal_reached = true :=
    run_invariant m (fun t => t.goal_reached = true) (step_goal_reached m) ops s hr
  obtain ⟨hg, hv⟩ := hinv.1 hr'
  have hf := getEta_found_of_goal_reached m tf (run m s ops) (run m s ops).odom.pose hr'
  rw [(control_loop_found_speed m tf (run m s ops) hg hf).2, hv, if_neg]
  norm_num

/-- C9: in every state reachable from startup with no goal received, the
tick publishes the command set by the constructor (speed 1500, steering 85)
and leaves the controller unchanged. -/
theorem control_loop_idle_before_goal (m : Libm α) (s : L1Controller α)
    (hreach : Reachable m s) (hg : s.goal_received = false) (tf : Transform α) :
    (control_loop m tf s).2.linear.x = Dbl.num 1500 ∧
    (control_loop m tf s).2.angular.z = Dbl.num 85 ∧
    (control_loop m tf s).1 = s := by
  rw [control_loop_no_goal m tf s hg]
  obtain ⟨h1, h2⟩ := (Inv_of_Reachable m s hreach).2 hg
  exact ⟨h1, h2, rfl⟩

/-- C10: in a tick with a goal received and a target found, the published
speed is `baseSpeed` when `Vcmd >= 0` and 1500 when `Vcmd < 0`. -/
theorem control_loop_speed (m : Libm α) (tf : Transform α) (s : L1Controller α)
    (hg : s.goal_received = true)
    (hf : (getEta m tf s s.odom.pose).2.foundForwardPt = true) :
    (0 ≤ s.Vcmd → (control_loop m tf s).2.linear.x = Dbl.num (s.baseSpeed : α)) ∧
    (s.Vcmd < 0 → (control_loop m tf s).2.linear.x = Dbl.num 1500) := by
  rw [(control_loop_found_speed m tf s hg hf).2]
  constructor
  · intro h; rw [if_pos h]
  · intro h; rw [if_neg (not_le.mpr h)]

/-- C17: after the constructor and after every sequence of callbacks, `Lfw`
and `goalRadius` both equal `getL1Distance` of the configured `Vcmd`,
whatever `Lfw` was configured; a goal check that forces `Vcmd` to `-5`
included. -/
theorem radii_fixed_at_startup (m : Libm α) (p : Params α) (ops : List (Op α)) :
    (run m (L1Controller.init p) ops).Lfw = getL1Distance p.Vcmd ∧
    (run m (L1Controller.init p) ops).goalRadius = getL1Distance p.Vcmd := by
  apply run_invariant m
    (fun t => t.Lfw = getL1Distance p.Vcmd ∧ t.goalRadius = getL1Distance p.Vcmd)
    _ ops (L1Controller.init p)
  · exact ⟨rfl, rfl⟩
  · intro s op h
    obtain ⟨h1, h2⟩ := step_radii m s op
    exact ⟨h1.trans h.1, h2.trans h.2⟩

/-- C14: if the frame transform of waypoint `i` fails, target selection
gives the same target vector and the same found flag as on the path with
waypoint `i` removed. -/
theorem get_odom_car2WayPtVec_skips_failed (m : Libm α) (tf : Transform α)
    (s : L1Controller α) (carPose : Pose α) (i : Nat) (p : PoseStamped α)
    (hi : s.map_path.poses[i]? = some p) (hfail : tf p = none) :
    (get_odom_car2WayPtVec m tf s carPose).1
      = (get_odom_car2WayPtVec m tf
          { s with map_path := ⟨s.map_path.poses.eraseIdx i⟩ } carPose).1 ∧
    (get_odom_car2WayPtVec m tf s carPose).2.foundForwardPt
      = (get_odom_car2WayPtVec m tf
          { s with map_path := ⟨s.map_path.poses.eraseIdx i⟩ } carPose).2.foundForwardPt := by
  have hscan := scanPath_eraseIdx m tf s carPose Point.zero s.map_path.poses i p hi hfail
  have hst := scanPath_Lfw_only m tf
    { s with map_path := ⟨s.map_path.poses.eraseIdx i⟩ } s carPose Point.zero
    (s.map_path.poses.eraseIdx i) rfl
  unfold get_odom_car2WayPtVec
  dsimp only
  rw [hst, hscan]
  exact ⟨rfl, rfl⟩

end MainResults

/-! ## The steering law -/

section SteeringLaw
variable {α : Type} [LinearOrderedField α]

/-- C11, amended: `getSteeringAngle eta` is
`-atan (L * sin eta / (Lfw / 2 + lfw * cos eta)) * (180 / PI)` with the
program's constant `PI = 3.14159265`. -/
theorem getSteeringAngle_formula (m : Libm α) (s : L1Controller α) (eta : α) :
    getSteeringAngle m s eta
      = -m.atan (s.L * m.sin eta / (s.Lfw / 2 + s.lfw * m.cos eta)) * (180 / 3.14159265) := by
  unfold getSteeringAngle PI
  norm_num

end SteeringLaw

/-! ## The goal callbacks and the integral -/

section GoalCallbacks
variable {α : Type} [LinearOrderedField α]

/-- C18: `update_goal`, whether its transform succeeds or throws, and
`goalReachingCheck`, whether it fires or not, leave `int_err` unchanged. -/
theorem goal_callbacks_keep_int_err (m : Libm α) (tf : Transform α) (s : L1Controller α)
    (g : PoseStamped α) :
    (update_goal tf s g).int_err = s.int_err ∧
    (goalReachingCheck m s).int_err = s.int_err :=
  ⟨(update_goal_frame tf s g).2.2.1, (goalReachingCheck_frame m s).2.1⟩

end GoalCallbacks

/-! ## The results at concrete inputs

The library functions are the real ones (`Real.sqrt`, `Real.sin`,
`Real.cos`, `Real.arctan`), with `binary32` as the conversion to `float` and
the planar yaw conversion of `Libm.planar`; the frame transform is the
identity. -/

section Examples

theorem sqrt_four : Real.sqrt 4 = 2 := by
  rw [show (4 : ℝ) = 2 * 2 by norm_num]
  exact Real.sqrt_mul_self (by norm_num)

/-- The identity orientation has yaw 0. -/
theorem yaw_odomAt (x y : ℝ) :
    getYawFromPose (Libm.planar Real.sqrt Real.sin Real.cos Real.arctan) (odomAt x y).pose = 0 := by
  simp [getYawFromPose, Libm.planar, odomAt, binary32_zero, binary32_one]

theorem fixtureSeeking_reachable {α : Type} [LinearOrderedField α] [FloorRing α]
    (m : Libm α)
    (path : List (PoseStamped α)) : Reachable m (fixtureSeeking path) :=
  ⟨Params.default,
    [Op.update_odom (odomAt 0 0), Op.update_globalPath ⟨path⟩,
      Op.update_goal some (poseAt 5 0)], rfl⟩

theorem fixtureIdle_reachable {α : Type} [LinearOrderedField α] [FloorRing α]
    (m : Libm α) :
    Reachable m (fixtureIdle : L1Controller α) :=
  ⟨Params.default, [Op.update_odom (odomAt 0 0), Op.update_globalPath ⟨[poseAt 2 0]⟩], rfl⟩

theorem fixtureSeeking_Lfw (path : List (PoseStamped ℝ)) :
    (fixtureSeeking path : L1Controller ℝ).Lfw = 1 := by
  norm_num [fixtureSeeking, update_odom, update_goal, update_globalPath,
    L1Controller.init, Params.default, getL1Distance]

theorem fixtureReached_fields :
    (fixtureReached (Libm.planar Real.sqrt Real.sin Real.cos Real.arctan)).goal_reached = true ∧
    (fixtureReached (Libm.planar Real.sqrt Real.sin Real.cos Real.arctan)).goal_received = true ∧
    (fixtureReached (Libm.planar Real.sqrt Real.sin Real.cos Real.arctan)).odom_goal_pos =
        ⟨0.5, 0, 0⟩ ∧
    (fixtureReached (Libm.planar Real.sqrt Real.sin Real.cos Real.arctan)).int_err = Dbl.num 0 := by
  refine ⟨?_, ?_, ?_, ?_⟩ <;>
    norm_num [fixtureReached, run, step, update_odom, update_goal, goalReachingCheck,
      getCar2GoalDist, L1Controller.init, Params.default, getL1Distance, poseAt, odomAt,
      Libm.planar, sqrt_four]

theorem fixtureReached_goal_reached :
    (fixtureReached (Libm.planar Real.sqrt Real.sin Real.cos Real.arctan)).goal_reached = true :=
  fixtureReached_fields.1

/-- The `float` forward value of the waypoint `(2, 0)` seen from the origin
with yaw 0 is 2. -/
theorem forwardTestValue_two :
    forwardTestValue (Libm.planar Real.sqrt Real.sin Real.cos Real.arctan)
        (poseAt 2 0 : PoseStamped ℝ).pose.position (odomAt 0 0).pose = 2 := by
  unfold forwardTestValue
  rw [yaw_odomAt]
  norm_num [Libm.planar, poseAt, odomAt, binary32_zero, binary32_two]

theorem fixtureSeeking_scan :
    scanPath (Libm.planar Real.sqrt Real.sin Real.cos Real.arctan) some
        (fixtureSeeking [poseAt 2 0]) (odomAt 0 0).pose Point.zero
      [poseAt 2 0] = ((poseAt 2 0 : PoseStamped ℝ).pose.position, true) := by
  apply scanPath_single (Libm.planar Real.sqrt Real.sin Real.cos Real.arctan) some _ _ (poseAt 2 0)
      (poseAt 2 0) rfl
  · rw [forwardTestValue_two]; norm_num
  · rw [fixtureSeeking_Lfw]
    norm_num [distance, Libm.planar, poseAt, odomAt]

theorem fixtureSeeking_found :
    (getEta (Libm.planar Real.sqrt Real.sin Real.cos Real.arctan) some
      (fixtureSeeking [poseAt 2 0]) (odomAt 0 0).pose).2.foundForwardPt = true := by
  rw [(getEta_eq _ _ _ _).2,
      (vec_of_scan (Libm.planar Real.sqrt Real.sin Real.cos Real.arctan) some
      (fixtureSeeking [poseAt 2 0])
    (odomAt 0 0).pose rfl).1]
  have h := fixtureSeeking_scan
  have hp : (fixtureSeeking [poseAt 2 0] : L1Controller ℝ).map_path.poses = [poseAt 2 0] := rfl
  rw [hp, h]

end Examples

section Witnesses

/-- C4 at a concrete input: goal reached at distance 0.5 (radius 1); then
the vehicle moves to `(9, 9)`, a new goal arrives, and the goal check and a
tick run. -/
theorem goal_reached_is_terminal_witness :
    (fixtureReached (Libm.planar Real.sqrt Real.sin Real.cos Real.arctan)).goal_reached = true ∧
    (run (Libm.planar Real.sqrt Real.sin Real.cos Real.arctan)
      (fixtureReached (Libm.planar Real.sqrt Real.sin Real.cos Real.arctan))
      [Op.update_odom (odomAt 9 9), Op.update_goal some (poseAt 20 0),
        Op.goalReachingCheck, Op.control_loop some]).goal_reached = true :=
  ⟨fixtureReached_goal_reached,
    goal_reached_is_terminal _ _ fixtureReached_goal_reached _⟩

/-- C8 at the spec scenario: goal at distance 0.5 with goal radius 1 is
reached; after new odometry, a new path and a new goal the tick still
publishes speed 1500. -/
theorem control_loop_stops_after_goal_witness :
    Reachable (Libm.planar Real.sqrt Real.sin Real.cos Real.arctan)
      (fixtureReached (Libm.planar Real.sqrt Real.sin Real.cos Real.arctan)) ∧
    (fixtureReached (Libm.planar Real.sqrt Real.sin Real.cos Real.arctan)).goal_reached = true ∧
    (control_loop (Libm.planar Real.sqrt Real.sin Real.cos Real.arctan) some
      (run (Libm.planar Real.sqrt Real.sin Real.cos Real.arctan)
        (fixtureReached (Libm.planar Real.sqrt Real.sin Real.cos Real.arctan))
        [Op.update_odom (odomAt 9 9), Op.update_globalPath ⟨[poseAt 12 9]⟩,
          Op.update_goal some (poseAt 20 0)])).2.linear.x = Dbl.num 1500 :=
  ⟨⟨Params.default, _, rfl⟩, fixtureReached_goal_reached,
    control_loop_stops_after_goal _ _ ⟨Params.default, _, rfl⟩
      fixtureReached_goal_reached _ _⟩

/-- C9 at a concrete input: odometry and a path have arrived, no goal. -/
theorem control_loop_idle_before_goal_witness :
    Reachable (Libm.planar Real.sqrt Real.sin Real.cos Real.arctan) fixtureIdle ∧
    (fixtureIdle : L1Controller ℝ).goal_received = false ∧
    (control_loop (Libm.planar Real.sqrt Real.sin Real.cos Real.arctan) some
      fixtureIdle).2.linear.x = Dbl.num 1500 ∧
    (control_loop (Libm.planar Real.sqrt Real.sin Real.cos Real.arctan) some
      fixtureIdle).2.angular.z = Dbl.num 85 ∧
    (control_loop (Libm.planar Real.sqrt Real.sin Real.cos Real.arctan) some
      fixtureIdle).1 = fixtureIdle :=
  ⟨fixtureIdle_reachable _, rfl,
    control_loop_idle_before_goal (Libm.planar Real.sqrt Real.sin Real.cos Real.arctan)
      fixtureIdle (fixtureIdle_reachable _) rfl some⟩

/-- C10 at a concrete input: vehicle at the origin with yaw 0, goal received
and not reached (`Vcmd = 1`), waypoint `(2, 0)` found: the published speed is
`baseSpeed = 1470`. -/
theorem control_loop_speed_witness :
    (fixtureSeeking [poseAt 2 0] : L1Controller ℝ).goal_received = true ∧
    (getEta (Libm.planar Real.sqrt Real.sin Real.cos Real.arctan) some
      (fixtureSeeking [poseAt 2 0]) (odomAt 0 0).pose).2.foundForwardPt = true ∧
    (control_loop (Libm.planar Real.sqrt Real.sin Real.cos Real.arctan) some
      (fixtureSeeking [poseAt 2 0])).2.linear.x = Dbl.num 1470 := by
  have h := (control_loop_speed (Libm.planar Real.sqrt Real.sin Real.cos Real.arctan) some
    (fixtureSeeking [poseAt 2 0]) rfl fixtureSeeking_found).1
    (by norm_num [fixtureSeeking, update_odom, update_goal, update_globalPath,
      L1Controller.init, Params.default])
  refine ⟨rfl, fixtureSeeking_found, ?_⟩
  rw [h]
  norm_num [fixtureSeeking, update_odom, update_goal, update_globalPath,
    L1Controller.init, Params.default]

/-- C14 at a concrete input: the transform fails for the first waypoint
`(-1, 0)` of the path `(-1,0), (2,0)`; selection is the same as on the path
`(2,0)` alone. -/
theorem get_odom_car2WayPtVec_skips_failed_witness :
    (fixtureSeeking [poseAt (-1) 0, poseAt 2 0] : L1Controller ℝ).map_path.poses[0]?
      = some (poseAt (-1) 0 : PoseStamped ℝ) ∧
    (failBehind (poseAt (-1) 0 : PoseStamped ℝ)) = none ∧
    (get_odom_car2WayPtVec (Libm.planar Real.sqrt Real.sin Real.cos Real.arctan) failBehind
      (fixtureSeeking [poseAt (-1) 0, poseAt 2 0]) (odomAt 0 0).pose).2.foundForwardPt
      = (get_odom_car2WayPtVec (Libm.planar Real.sqrt Real.sin Real.cos Real.arctan) failBehind
          { (fixtureSeeking [poseAt (-1) 0, poseAt 2 0] : L1Controller ℝ) with
            map_path := ⟨(fixtureSeeking [poseAt (-1) 0, poseAt 2 0]
              : L1Controller ℝ).map_path.poses.eraseIdx 0⟩ }
          (odomAt 0 0).pose).2.foundForwardPt := by
  have hfail : (failBehind (poseAt (-1) 0 : PoseStamped ℝ)) = none := by
    simp [failBehind, poseAt]
  exact ⟨rfl, hfail,
    (get_odom_car2WayPtVec_skips_failed (Libm.planar Real.sqrt Real.sin Real.cos Real.arctan)
        failBehind
      (fixtureSeeking [poseAt (-1) 0, poseAt 2 0]) (odomAt 0 0).pose 0 (poseAt (-1) 0)
      rfl hfail).2⟩

end Witnesses

/-! ## The unguarded quotient of `getEta` -/

section OnGoal

theorem fixtureOnGoal_fields :
    (fixtureOnGoal (Libm.planar Real.sqrt Real.sin Real.cos Real.arctan)).goal_reached = true ∧
    (fixtureOnGoal (Libm.planar Real.sqrt Real.sin Real.cos Real.arctan)).goal_received = true ∧
    (fixtureOnGoal (Libm.planar Real.sqrt Real.sin Real.cos Real.arctan)).odom_goal_pos =
        ⟨0.5, 0, 0⟩ ∧
    (fixtureOnGoal (Libm.planar Real.sqrt Real.sin Real.cos Real.arctan)).int_err = Dbl.num 0 ∧
    (fixtureOnGoal (Libm.planar Real.sqrt Real.sin Real.cos Real.arctan)).odom = odomAt 0.5 0 :=
  ⟨fixtureReached_fields.1, fixtureReached_fields.2.1, fixtureReached_fields.2.2.1,
    fixtureReached_fields.2.2.2, rfl⟩

/-- With the vehicle exactly on the reached goal the target vector is
`(0, 0)` and `getEta` returns NaN. -/
theorem getEta_on_goal :
    (getEta (Libm.planar Real.sqrt Real.sin Real.cos Real.arctan) some
        (fixtureOnGoal (Libm.planar Real.sqrt Real.sin Real.cos Real.arctan))
      (fixtureOnGoal (Libm.planar Real.sqrt Real.sin Real.cos Real.arctan)).odom.pose).2.foundForwardPt
      = true ∧
    (getEta (Libm.planar Real.sqrt Real.sin Real.cos Real.arctan) some
        (fixtureOnGoal (Libm.planar Real.sqrt Real.sin Real.cos Real.arctan))
      (fixtureOnGoal (Libm.planar Real.sqrt Real.sin Real.cos Real.arctan)).odom.pose).1
      = Dbl.nan := by
  obtain ⟨hr, _, hg, _, ho⟩ := fixtureOnGoal_fields
  obtain ⟨h1, h2, h3⟩ :=
    vec_of_goal_reached (Libm.planar Real.sqrt Real.sin Real.cos Real.arctan) some
    (fixtureOnGoal (Libm.planar Real.sqrt Real.sin Real.cos Real.arctan))
    (fixtureOnGoal (Libm.planar Real.sqrt Real.sin Real.cos Real.arctan)).odom.pose hr
  refine ⟨by rw [(getEta_eq _ _ _ _).2]; exact h1, ?_⟩
  rw [(getEta_eq _ _ _ _).1, h2, h3, hg, ho]
  have hx :
      (toVehicleLocal (Libm.planar Real.sqrt Real.sin Real.cos Real.arctan) ⟨0.5, 0, 0⟩
      (odomAt 0.5 0).pose).1 = 0 := by
    simp [toVehicleLocal, odomAt]
  have hy :
      (toVehicleLocal (Libm.planar Real.sqrt Real.sin Real.cos Real.arctan) ⟨0.5, 0, 0⟩
      (odomAt 0.5 0).pose).2 = 0 := by
    simp [toVehicleLocal, odomAt]
  rw [hx, hy]
  exact atanQuo_div_zero_zero _

/-- C2 at the failing input: the goal `(0.5, 0)` is reached with the vehicle
at the origin, the odometry then puts the vehicle on the goal, and a tick
runs; `int_err`, which was 0, is NaN after the tick and after every further
sequence of callbacks. -/
theorem int_err_nan_after_tick_on_goal :
    Reachable (Libm.planar Real.sqrt Real.sin Real.cos Real.arctan)
        (fixtureOnGoal (Libm.planar Real.sqrt Real.sin Real.cos Real.arctan)) ∧
    (fixtureOnGoal (Libm.planar Real.sqrt Real.sin Real.cos Real.arctan)).int_err = Dbl.num 0 ∧
    ∀ ops : List (Op ℝ),
      (run (Libm.planar Real.sqrt Real.sin Real.cos Real.arctan)
          (fixtureOnGoal (Libm.planar Real.sqrt Real.sin Real.cos Real.arctan))
        (Op.control_loop some :: ops)).int_err = Dbl.nan := by
  refine ⟨⟨Params.default,
    [Op.update_odom (odomAt 0 0), Op.update_goal some (poseAt 0.5 0), Op.goalReachingCheck,
      Op.update_odom (odomAt 0.5 0)], rfl⟩, fixtureOnGoal_fields.2.2.2.1, ?_⟩
  intro ops
  rw [run_cons]
  apply run_invariant (Libm.planar Real.sqrt Real.sin Real.cos Real.arctan)
      (fun t => t.int_err = Dbl.nan) (step_int_err_nan _) ops
  exact (control_loop_found_nan (Libm.planar Real.sqrt Real.sin Real.cos Real.arctan) some _
      fixtureOnGoal_fields.2.1
    getEta_on_goal.1 getEta_on_goal.2).2.1

/-- C7 at the failing input: in the tick with the vehicle on the reached
goal a goal is received and the target is found, `eta` is NaN, and `int_err`
goes from 0 to NaN, which is no value clamped to `[-40, 40]`. -/
theorem control_loop_nan_on_goal :
    (fixtureOnGoal (Libm.planar Real.sqrt Real.sin Real.cos Real.arctan)).goal_received = true ∧
    (getEta (Libm.planar Real.sqrt Real.sin Real.cos Real.arctan) some
        (fixtureOnGoal (Libm.planar Real.sqrt Real.sin Real.cos Real.arctan))
      (fixtureOnGoal (Libm.planar Real.sqrt Real.sin Real.cos Real.arctan)).odom.pose).2.foundForwardPt
      = true ∧
    (fixtureOnGoal (Libm.planar Real.sqrt Real.sin Real.cos Real.arctan)).int_err = Dbl.num 0 ∧
    (control_loop (Libm.planar Real.sqrt Real.sin Real.cos Real.arctan) some
        (fixtureOnGoal (Libm.planar Real.sqrt Real.sin Real.cos Real.arctan))).1.cur_err = Dbl.nan ∧
    (control_loop (Libm.planar Real.sqrt Real.sin Real.cos Real.arctan) some
        (fixtureOnGoal (Libm.planar Real.sqrt Real.sin Real.cos Real.arctan))).1.int_err = Dbl.nan ∧
    (control_loop (Libm.planar Real.sqrt Real.sin Real.cos Real.arctan) some
        (fixtureOnGoal (Libm.planar Real.sqrt Real.sin Real.cos Real.arctan))).2.angular.z
      = Dbl.nan := by
  obtain ⟨h1, h2, h3⟩ := control_loop_found_nan
      (Libm.planar Real.sqrt Real.sin Real.cos Real.arctan) some _ fixtureOnGoal_fields.2.1
    getEta_on_goal.1 getEta_on_goal.2
  exact ⟨fixtureOnGoal_fields.2.1, getEta_on_goal.1, fixtureOnGoal_fields.2.2.2.1, h1, h2, h3⟩

end OnGoal

/-! ## The single-precision forward test -/

section Turned

theorem cos_two_arctan_half : Real.cos (2 * Real.arctan (1 / 2)) = 3 / 5 := by
  rw [Real.cos_two_mul, Real.cos_sq_arctan]
  norm_num

theorem sin_two_arctan_half : Real.sin (2 * Real.arctan (1 / 2)) = 4 / 5 := by
  rw [Real.sin_two_mul]
  have h : Real.sin (Real.arctan (1 / 2)) * Real.cos (Real.arctan (1 / 2))
      = (1 / 2) * Real.cos (Real.arctan (1 / 2)) ^ 2 := by
    have ht := Real.tan_arctan (1 / 2)
    rw [Real.tan_eq_sin_div_cos] at ht
    have hc : Real.cos (Real.arctan (1 / 2)) ≠ 0 := ne_of_gt (Real.cos_arctan_pos _)
    field_simp at ht ⊢
    linear_combination (Real.cos (Real.arctan (1 / 2))) * ht
  rw [mul_assoc, h, Real.cos_sq_arctan]
  norm_num

/-- The orientation `(0, 0, 1, 2)` has yaw `2 * arctan (1 / 2)`. -/
theorem yaw_odomTurned :
    getYawFromPose (Libm.planar Real.sqrt Real.sin Real.cos Real.arctan)
        (odomTurned : Odometry ℝ).pose = 2 * Real.arctan (1 / 2) := by
  simp [getYawFromPose, Libm.planar, odomTurned, binary32_one, binary32_two]

/-- The waypoint's `x`, `4 - 11 / 2^25`, converts to the `float` `4 - 1 / 2^22`. -/
theorem binary32_wayPt_x :
    binary32 ((134217717 : ℝ) / 33554432) = 16777215 / 4194304 := by
  rw [binary32_eq (134217717 / 33554432) 1 16777215 (by norm_num)
    (by rw [abs_of_pos (by norm_num)]; norm_num)
    (by rw [abs_of_pos (by norm_num)]; norm_num)
    (roundEven_eq_of_lt _ _ (by norm_num) (by norm_num))]
  norm_num

/-- The waypoint's `y`, `-(3 - 1 / 2^22)`, is a `float`. -/
theorem binary32_wayPt_y :
    binary32 (-((12582911 : ℝ) / 4194304)) = -(12582911 / 4194304) := by
  rw [binary32_eq (-(12582911 / 4194304)) 1 (-12582911) (by norm_num)
    (by rw [abs_neg, abs_of_pos (by norm_num)]; norm_num)
    (by rw [abs_neg, abs_of_pos (by norm_num)]; norm_num)
    (by
      have h : -((12582911 : ℝ) / 4194304) / 2 ^ ((1 : Int) - 23)
          = ((-12582911 : Int) : ℝ) := by norm_num
      rw [h, roundEven_intCast])]
  norm_num

/-- At the waypoint `poseNearAbeam`, seen from `odomTurned`: the `float`
forward value is positive, the distance is at least 1, and the forward
component of the vehicle-local vector is `-1 / 167772160`. -/
theorem nearAbeam_values :
    0 < forwardTestValue (Libm.planar Real.sqrt Real.sin Real.cos Real.arctan)
      (poseNearAbeam : PoseStamped ℝ).pose.position (odomTurned : Odometry ℝ).pose ∧
    (1 : ℝ) ≤ distance (Libm.planar Real.sqrt Real.sin Real.cos Real.arctan)
      (poseNearAbeam : PoseStamped ℝ).pose.position (odomTurned : Odometry ℝ).pose.position ∧
    (toVehicleLocal (Libm.planar Real.sqrt Real.sin Real.cos Real.arctan)
      (poseNearAbeam : PoseStamped ℝ).pose.position (odomTurned : Odometry ℝ).pose).1
      = -(1 / 167772160) := by
  refine ⟨?_, ?_, ?_⟩
  · unfold forwardTestValue
    rw [yaw_odomTurned]
    have hx : (poseNearAbeam : PoseStamped ℝ).pose.position.x
        - (odomTurned : Odometry ℝ).pose.position.x = 134217717 / 33554432 := by
      norm_num [poseNearAbeam, poseAt, odomTurned]
    have hy : (poseNearAbeam : PoseStamped ℝ).pose.position.y
        - (odomTurned : Odometry ℝ).pose.position.y = -(12582911 / 4194304) := by
      norm_num [poseNearAbeam, poseAt, odomTurned]
    rw [hx, hy]
    show 0 < binary32 (Real.cos (2 * Real.arctan (1 / 2)) * binary32 (134217717 / 33554432)
      + Real.sin (2 * Real.arctan (1 / 2)) * binary32 (-(12582911 / 4194304)))
    rw [cos_two_arctan_half, sin_two_arctan_half, binary32_wayPt_x, binary32_wayPt_y]
    apply binary32_pos
    norm_num
  · unfold distance
    show (1 : ℝ) ≤ Real.sqrt _
    rw [Real.le_sqrt' (by norm_num)]
    norm_num [poseNearAbeam, poseAt, odomTurned]
  · unfold toVehicleLocal
    rw [yaw_odomTurned]
    show Real.cos (2 * Real.arctan (1 / 2)) * _ + Real.sin (2 * Real.arctan (1 / 2)) * _ = _
    rw [cos_two_arctan_half, sin_two_arctan_half]
    norm_num [poseNearAbeam, poseAt, odomTurned]

theorem fixtureTurned_fields :
    (fixtureTurned : L1Controller ℝ).goal_received = true ∧
    (fixtureTurned : L1Controller ℝ).goal_reached = false ∧
    (fixtureTurned : L1Controller ℝ).map_path.poses = [poseNearAbeam] ∧
    (fixtureTurned : L1Controller ℝ).odom = odomTurned ∧
    (fixtureTurned : L1Controller ℝ).Lfw = 1 ∧
    (fixtureTurned : L1Controller ℝ).Vcmd = 1 ∧
    (fixtureTurned : L1Controller ℝ).baseSpeed = 1470 := by
  refine ⟨rfl, rfl, rfl, rfl, ?_, ?_, rfl⟩ <;>
    norm_num [fixtureTurned, update_odom, update_goal, update_globalPath,
      L1Controller.init, Params.default, getL1Distance]

/-- The scan at `fixtureTurned` selects the waypoint `poseNearAbeam`. -/
theorem fixtureTurned_scan :
    (get_odom_car2WayPtVec (Libm.planar Real.sqrt Real.sin Real.cos Real.arctan) some fixtureTurned
      (odomTurned : Odometry ℝ).pose).2.foundForwardPt = true ∧
    (get_odom_car2WayPtVec (Libm.planar Real.sqrt Real.sin Real.cos Real.arctan) some fixtureTurned
      (odomTurned : Odometry ℝ).pose).1.x = -(1 / 167772160) := by
  obtain ⟨hv1, hv2, hv3⟩ := nearAbeam_values
  have hscan : scanPath (Libm.planar Real.sqrt Real.sin Real.cos Real.arctan) some fixtureTurned
      (odomTurned : Odometry ℝ).pose Point.zero
      (fixtureTurned : L1Controller ℝ).map_path.poses
        = ((poseNearAbeam : PoseStamped ℝ).pose.position, true) := by
    rw [fixtureTurned_fields.2.2.1]
    apply scanPath_single (Libm.planar Real.sqrt Real.sin Real.cos Real.arctan) some _ _
        poseNearAbeam poseNearAbeam rfl hv1
    rw [fixtureTurned_fields.2.2.2.2.1]
    exact hv2
  obtain ⟨h1, h2, _⟩ := vec_of_scan (Libm.planar Real.sqrt Real.sin Real.cos Real.arctan) some
      fixtureTurned
    (odomTurned : Odometry ℝ).pose rfl
  rw [hscan] at h1 h2
  exact ⟨h1, by rw [h2, hv3]⟩

/-- C1 at the failing input: vehicle at the origin with orientation
`(0, 0, 1, 2)`, `Lfw = 1`, goal not reached, the only waypoint at
`(4 - 11 / 2^25, -(3 - 1 / 2^22))`.  The target is found although no
waypoint has a positive vehicle-local forward component. -/
theorem scan_finds_waypoint_not_ahead :
    (fixtureTurned : L1Controller ℝ).goal_reached = false ∧
    (get_odom_car2WayPtVec (Libm.planar Real.sqrt Real.sin Real.cos Real.arctan) some fixtureTurned
      (odomTurned : Odometry ℝ).pose).2.foundForwardPt = true ∧
    ¬ ∃ p ∈ (fixtureTurned : L1Controller ℝ).map_path.poses, ∃ q,
      Qualifies (Libm.planar Real.sqrt Real.sin Real.cos Real.arctan) some
          (fixtureTurned : L1Controller ℝ).Lfw
        (odomTurned : Odometry ℝ).pose p q := by
  refine ⟨rfl, fixtureTurned_scan.1, ?_⟩
  rintro ⟨p, hp, q, o, ho, hq, hx, _⟩
  rw [fixtureTurned_fields.2.2.1, List.mem_singleton] at hp
  subst hp
  cases ho
  subst hq
  rw [nearAbeam_values.2.2] at hx
  norm_num at hx

/-- C6 at the failing input: a goal is received and not reached and the only
waypoint has a negative vehicle-local forward component, yet the tick sets
`foundForwardPt` and publishes `baseSpeed = 1470`, not the fail-safe 1500. -/
theorem control_loop_no_failsafe_near_abeam :
    (fixtureTurned : L1Controller ℝ).goal_received = true ∧
    (fixtureTurned : L1Controller ℝ).goal_reached = false ∧
    (∀ p ∈ (fixtureTurned : L1Controller ℝ).map_path.poses,
      (toVehicleLocal (Libm.planar Real.sqrt Real.sin Real.cos Real.arctan) p.pose.position
        (fixtureTurned : L1Controller ℝ).odom.pose).1 < 0) ∧
    (control_loop (Libm.planar Real.sqrt Real.sin Real.cos Real.arctan) some
        fixtureTurned).1.foundForwardPt = true ∧
    (control_loop (Libm.planar Real.sqrt Real.sin Real.cos Real.arctan) some
        fixtureTurned).2.linear.x = Dbl.num 1470 := by
  have hf : (getEta (Libm.planar Real.sqrt Real.sin Real.cos Real.arctan) some fixtureTurned
      (fixtureTurned : L1Controller ℝ).odom.pose).2.foundForwardPt = true := by
    rw [(getEta_eq _ _ _ _).2]
    exact fixtureTurned_scan.1
  obtain ⟨h1, h2⟩ := control_loop_found_speed (Libm.planar Real.sqrt Real.sin Real.cos Real.arctan)
      some fixtureTurned rfl hf
  refine ⟨rfl, rfl, ?_, h1, ?_⟩
  · intro p hp
    rw [fixtureTurned_fields.2.2.1, List.mem_singleton] at hp
    subst hp
    have := nearAbeam_values.2.2
    rw [fixtureTurned_fields.2.2.2.1, this]
    norm_num
  · rw [h2, fixtureTurned_fields.2.2.2.2.2.1, fixtureTurned_fields.2.2.2.2.2.2]
    norm_num

/-- C19 at the failing input: the goal is not reached and a target is found,
but the forward component of the returned vehicle-local vector is
`-1 / 167772160`, which is negative. -/
theorem found_target_behind :
    (fixtureTurned : L1Controller ℝ).goal_reached = false ∧
    (get_odom_car2WayPtVec (Libm.planar Real.sqrt Real.sin Real.cos Real.arctan) some fixtureTurned
      (odomTurned : Odometry ℝ).pose).2.foundForwardPt = true ∧
    (get_odom_car2WayPtVec (Libm.planar Real.sqrt Real.sin Real.cos Real.arctan) some fixtureTurned
      (odomTurned : Odometry ℝ).pose).1.x < 0 := by
  refine ⟨rfl, fixtureTurned_scan.1, ?_⟩
  rw [fixtureTurned_scan.2]
  norm_num

end Turned

/-! ## Heading error and steering law over the reals -/

section GuidanceReal

theorem arctan_div_eq_arg (x y : ℝ) (hx : 0 < x) :
    Real.arctan (y / x) = Complex.arg ⟨x, y⟩ := by
  have htan : Real.tan (Complex.arg ⟨x, y⟩) = y / x := Complex.tan_arg ⟨x, y⟩
  have habs : |Complex.arg ⟨x, y⟩| < Real.pi / 2 :=
    Complex.abs_arg_lt_pi_div_two_iff.mpr (Or.inl hx)
  rw [← htan]
  exact Real.arctan_tan (abs_lt.mp habs).1 (abs_lt.mp habs).2

/-- C11, as stated, fails: with the default parameters and `eta = π / 2`
the code's result differs from the formula with the mathematical `π`,
because `PI = 3.14159265` is not `π`. -/
theorem getSteeringAngle_not_exact_pi :
    getSteeringAngle (Libm.planar Real.sqrt Real.sin Real.cos Real.arctan)
        (L1Controller.init Params.default) (Real.pi / 2)
      ≠ -Real.arctan
          ((L1Controller.init Params.default : L1Controller ℝ).L * Real.sin (Real.pi / 2)
            / ((L1Controller.init Params.default : L1Controller ℝ).Lfw / 2
              + (L1Controller.init Params.default : L1Controller ℝ).lfw
                * Real.cos (Real.pi / 2)))
        * (180 / Real.pi) := by
  have hL : (L1Controller.init Params.default : L1Controller ℝ).L = 0.26 := rfl
  have hl : (L1Controller.init Params.default : L1Controller ℝ).lfw = 0.13 := rfl
  have hLfw : (L1Controller.init Params.default : L1Controller ℝ).Lfw = 1 := by
    norm_num [L1Controller.init, Params.default, getL1Distance]
  unfold getSteeringAngle PI
  simp only [Libm.planar, hL, hl, hLfw, Real.sin_pi_div_two, Real.cos_pi_div_two]
  have ha : Real.arctan ((0.26 : ℝ) * 1 / (1 / 2 + 0.13 * 0)) ≠ 0 := by
    rw [Ne, Real.arctan_eq_zero_iff]
    norm_num
  intro h
  have h2 : (180.0 : ℝ) / 3.14159265 = 180 / Real.pi :=
    mul_left_cancel₀ (neg_ne_zero.mpr ha) h
  have hpi : Real.pi = 3.14159265 := by
    have hp := Real.pi_pos
    field_simp at h2
    linarith
  have hgt := Real.pi_gt_d20
  rw [hpi] at hgt
  norm_num at hgt

/-- C16, as stated, fails: the goal `(0.5, 0)` is reached and the vehicle has
moved on to `(1, 0)` with yaw 0; the target, the goal, is found and lies
straight behind, `getEta` returns `arctan (0 / -0.5) = 0`, while the
two-argument arctangent of the local vector `(-0.5, 0)` is `π`. -/
theorem getEta_not_atan2_behind :
    (get_odom_car2WayPtVec (Libm.planar Real.sqrt Real.sin Real.cos Real.arctan) some
      (fixturePastGoal (Libm.planar Real.sqrt Real.sin Real.cos Real.arctan))
          (odomAt 1 0).pose).2.foundForwardPt = true ∧
    (getEta (Libm.planar Real.sqrt Real.sin Real.cos Real.arctan) some
      (fixturePastGoal (Libm.planar Real.sqrt Real.sin Real.cos Real.arctan)) (odomAt 1 0).pose).1
      ≠ Dbl.num (Complex.arg
          ⟨(get_odom_car2WayPtVec (Libm.planar Real.sqrt Real.sin Real.cos Real.arctan) some
              (fixturePastGoal (Libm.planar Real.sqrt Real.sin Real.cos Real.arctan))
                  (odomAt 1 0).pose).1.x,
            (get_odom_car2WayPtVec (Libm.planar Real.sqrt Real.sin Real.cos Real.arctan) some
              (fixturePastGoal (Libm.planar Real.sqrt Real.sin Real.cos Real.arctan))
                  (odomAt 1 0).pose).1.y⟩) := by
  have hr : (fixturePastGoal
      (Libm.planar Real.sqrt Real.sin Real.cos Real.arctan)).goal_reached = true :=
    fixtureReached_goal_reached
  have hg : (fixturePastGoal (Libm.planar Real.sqrt Real.sin Real.cos Real.arctan)).odom_goal_pos
      = ⟨0.5, 0, 0⟩ := fixtureReached_fields.2.2.1
  obtain ⟨h1, h2, h3⟩ :=
    vec_of_goal_reached (Libm.planar Real.sqrt Real.sin Real.cos Real.arctan) some
      (fixturePastGoal (Libm.planar Real.sqrt Real.sin Real.cos Real.arctan)) (odomAt 1 0).pose hr
  refine ⟨h1, ?_⟩
  rw [(getEta_eq _ _ _ _).1, h2, h3, hg]
  have hx : (toVehicleLocal (Libm.planar Real.sqrt Real.sin Real.cos Real.arctan) ⟨0.5, 0, 0⟩
      (odomAt 1 0).pose).1 = -0.5 := by
    unfold toVehicleLocal
    rw [yaw_odomAt]
    norm_num [Libm.planar, odomAt]
  have hy : (toVehicleLocal (Libm.planar Real.sqrt Real.sin Real.cos Real.arctan) ⟨0.5, 0, 0⟩
      (odomAt 1 0).pose).2 = 0 := by
    unfold toVehicleLocal
    rw [yaw_odomAt]
    norm_num [Libm.planar, odomAt]
  rw [hx, hy, atanQuo_div_of_ne _ _ _ (by norm_num)]
  have harg : Complex.arg ⟨(-0.5 : ℝ), 0⟩ = Real.pi :=
    Complex.arg_ofReal_of_neg (by norm_num)
  rw [harg]
  simp only [Libm.planar, zero_div, Real.arctan_zero]
  intro h
  exact Real.pi_ne_zero (Dbl.num.inj h).symm

/-- C16, amended: whenever the forward component of the vehicle-local target
vector is not zero, `getEta` returns `arctan (lateral / forward)`; whenever
it is positive, this is the two-argument arctangent
`atan2 (lateral, forward)`, the signed angle between the forward axis and
the target. -/
theorem getEta_is_arctan_ratio (m : Libm ℝ) (hatan : m.atan = Real.arctan)
    (tf : Transform ℝ) (s : L1Controller ℝ) (carPose : Pose ℝ) :
    ((get_odom_car2WayPtVec m tf s carPose).1.x ≠ 0 →
      (getEta m tf s carPose).1
        = Dbl.num (Real.arctan ((get_odom_car2WayPtVec m tf s carPose).1.y
            / (get_odom_car2WayPtVec m tf s carPose).1.x))) ∧
    (0 < (get_odom_car2WayPtVec m tf s carPose).1.x →
      (getEta m tf s carPose).1
        = Dbl.num (Complex.arg ⟨(get_odom_car2WayPtVec m tf s carPose).1.x,
            (get_odom_car2WayPtVec m tf s carPose).1.y⟩)) := by
  have h : (get_odom_car2WayPtVec m tf s carPose).1.x ≠ 0 →
      (getEta m tf s carPose).1
        = Dbl.num (Real.arctan ((get_odom_car2WayPtVec m tf s carPose).1.y
            / (get_odom_car2WayPtVec m tf s carPose).1.x)) := by
    intro hx
    rw [(getEta_eq m tf s carPose).1, atanQuo_div_of_ne m _ _ hx, hatan]
  refine ⟨h, ?_⟩
  intro hx
  rw [h (ne_of_gt hx), arctan_div_eq_arg _ _ hx]

/-- C16, amended, at a concrete input: vehicle at the origin with yaw 0,
goal not reached, waypoint `(2, 0)`: the forward component is 2 and `eta`
is the two-argument arctangent. -/
theorem getEta_is_arctan_ratio_witness :
    (Libm.planar Real.sqrt Real.sin Real.cos Real.arctan).atan = Real.arctan ∧
    (0 : ℝ) < (get_odom_car2WayPtVec (Libm.planar Real.sqrt Real.sin Real.cos Real.arctan) some
      (fixtureSeeking [poseAt 2 0]) (odomAt 0 0).pose).1.x ∧
    (getEta (Libm.planar Real.sqrt Real.sin Real.cos Real.arctan) some
      (fixtureSeeking [poseAt 2 0]) (odomAt 0 0).pose).1
      = Dbl.num (Complex.arg
          ⟨(get_odom_car2WayPtVec (Libm.planar Real.sqrt Real.sin Real.cos Real.arctan) some
              (fixtureSeeking [poseAt 2 0]) (odomAt 0 0).pose).1.x,
            (get_odom_car2WayPtVec (Libm.planar Real.sqrt Real.sin Real.cos Real.arctan) some
              (fixtureSeeking [poseAt 2 0]) (odomAt 0 0).pose).1.y⟩) := by
  have hx : (0 : ℝ) <
      (get_odom_car2WayPtVec (Libm.planar Real.sqrt Real.sin Real.cos Real.arctan) some
      (fixtureSeeking [poseAt 2 0]) (odomAt 0 0).pose).1.x := by
    rw [(vec_of_scan (Libm.planar Real.sqrt Real.sin Real.cos Real.arctan) some
        (fixtureSeeking [poseAt 2 0]) (odomAt 0 0).pose rfl).2.1]
    have hp : (fixtureSeeking [poseAt 2 0] : L1Controller ℝ).map_path.poses
        = [poseAt 2 0] := rfl
    rw [hp, fixtureSeeking_scan]
    unfold toVehicleLocal
    rw [yaw_odomAt]
    norm_num [Libm.planar, poseAt, odomAt]
  exact ⟨rfl, hx,
    (getEta_is_arctan_ratio (Libm.planar Real.sqrt Real.sin Real.cos Real.arctan) rfl some
      (fixtureSeeking [poseAt 2 0]) (odomAt 0 0).pose).2 hx⟩

end GuidanceReal

end L1
